import Mathlib

/-!
pddns-go: the dynamic-DNS update agent of `main.go`

A shallow embedding of `main.go` (package `main`) and a verification of its
update cycle.

* Go strings are Lean `String`s (valid Unicode text), Go `int` is `Int`
  together with the 64-bit range wherever the range matters (`strconv.Atoi`).
* A Go `error` is the text of its `Error()` method; a call returning
  `(T, error)` becomes `Except String T`.
* The standard library and the host are not part of `main.go`.  The functions
  whose results depend on the outside world (`net.InterfaceByName`,
  `json.Marshal`, the URL parser behind `http.NewRequest`, `(*http.Client).Do`)
  are fields of a `Runtime`; deterministic library functions that the
  properties depend on (`strconv.Atoi`, `net.IP.To4`, `net.IP.String`,
  `http.Header.Set`, `url.URL.String`, the redirect policy of `http.Client`,
  the encoder of `encoding/json`) are modelled after their library source.
* `main` returns no value: what it does is observable as a sequence of
  `Event`s (writes to standard output, resolver calls, HTTP requests, sleeps).
  The `for` loop is unbounded, so `main` takes a number of iterations to run
  (fuel) and reports whether the process has exited or is still looping.
* One call of `client.Do` is one `Event.send`.  The requests that the client
  then puts on the network (the request itself and those that follow
  redirects) are those of `Client.Do`, a model of the default client of
  `net/http` over a `Network`.  The deferred `resp.Body.Close()` gives no event.
-/

namespace PddnsGo

/-! ## Data model (`main.go`, lines 14-36) -/

/-- The constant `defaultTTL` of `main.go`. -/
def defaultTTL : Int := 300

/-- The struct `Record`; the field `Type` is spelled `Type_` here. -/
structure Record where
  Content : String
  Name : String
  TTL : Int
  Type_ : String
  Disabled : Bool
deriving DecidableEq, Repr

/-- The struct `RRSet`. -/
structure RRSet where
  Name : String
  Type_ : String
  TTL : Int
  ChangeType : String
  Records : List Record
deriving DecidableEq, Repr

/-- The struct `DNSUpdate`. -/
structure DNSUpdate where
  RRSets : List RRSet
deriving DecidableEq, Repr

/-! ## `net`: addresses of an interface -/

/-- A `net.IP`: a slice of bytes. -/
abbrev IP := List (Fin 256)

/-- The prefix `00 00 00 00 00 00 00 00 00 00 ff ff` of an IPv4-mapped IPv6 address (`v4InV6Prefix`). -/
def v4InV6Prefix : List (Fin 256) := [0, 0, 0, 0, 0, 0, 0, 0, 0, 0, 255, 255]

/-- The method `net.IP.To4`: the 4-byte form of an IPv4 address, `none` (Go `nil`) otherwise. -/
def IP.To4 (ip : IP) : Option IP :=
  if ip.length = 4 then some ip
  else if ip.length = 16 ∧ ip.take 12 = v4InV6Prefix then some (ip.drop 12)
  else none

/-- Dotted-decimal text of a list of bytes: `a.b.c.d`. -/
def dotted (bs : List (Fin 256)) : String :=
  ".".intercalate (bs.map fun b => toString b.val)

/-- Lower-case hexadecimal text of `n`, without leading zeros. -/
def hexText (n : Nat) : String := String.mk (Nat.toDigits 16 n)

/-- The 16-bit groups of a 16-byte address. -/
def groups16 : List (Fin 256) → List Nat
  | hi :: lo :: rest => (hi.val * 256 + lo.val) :: groups16 rest
  | _ => []

/-- Length of the run of zero groups at the start of `gs`. -/
def zeroRun : List Nat → Nat
  | 0 :: rest => zeroRun rest + 1
  | _ => 0

/-- Start and length of the first longest run of at least two zero groups
(`(0, 0)` when there is none): every start index is tried in turn and a run
replaces the best one only when it is strictly longer. -/
def longestZeroRun (gs : List Nat) : Nat × Nat :=
  (List.range gs.length).foldl
    (fun best i =>
      let len := zeroRun (gs.drop i)
      if 2 ≤ len ∧ best.2 < len then (i, len) else best)
    (0, 0)

/-- Text of an IPv6 address given by its eight groups: hexadecimal groups, the
first longest run of zero groups written `::`. -/
def ipv6Text (gs : List Nat) : String :=
  let hex (l : List Nat) : String := ":".intercalate (l.map hexText)
  let (start, len) := longestZeroRun gs
  if len = 0 then hex gs
  else hex (gs.take start) ++ "::" ++ hex (gs.drop (start + len))

/-- The method `net.IP.String`: `<nil>` for the empty slice, `?` and the
hexadecimal bytes for a slice that is neither 4 nor 16 bytes long, dotted
decimal for an IPv4 (or IPv4-mapped) address, IPv6 text otherwise. -/
def IP.String (ip : IP) : String :=
  if ip.length = 0 then "<nil>"
  else if ip.length ≠ 4 ∧ ip.length ≠ 16 then
    "?" ++ String.join (ip.map fun b => String.mk ((Nat.toDigits 16 (b.val / 16)) ++ Nat.toDigits 16 (b.val % 16)))
  else
    match IP.To4 ip with
    | some p4 => dotted p4
    | none => ipv6Text (groups16 ip)

/-- The dynamic types behind a `net.Addr`: a `*net.IPNet` (address and mask),
which is what `Interface.Addrs` yields, or any other implementation, which the
type switch of `getLocalIPAddress` passes over and of which only the text is kept. -/
inductive Addr where
  | IPNet (ip : IP) (mask : List (Fin 256))
  | other (text : String)
deriving DecidableEq, Repr

/-- A `*net.Interface` as far as `main.go` uses it: its name and what its method `Addrs()` returns. -/
structure Interface where
  Name : String
  Addrs : Except String (List Addr)

/-- The `for _, addr := range addrs` loop of `getLocalIPAddress` (lines 49-56):
the text of the first `*net.IPNet` entry whose `IP.To4()` is not `nil`. -/
def getLocalIPAddress.scan : List Addr → Option String
  | [] => none
  | addr :: rest =>
    match addr with
    | .IPNet ip _ => if (IP.To4 ip).isSome then some (IP.String ip) else getLocalIPAddress.scan rest
    | .other _ => getLocalIPAddress.scan rest

/-- The function `getLocalIPAddress` (lines 38-59); `InterfaceByName` is `net.InterfaceByName` on the host. -/
def getLocalIPAddress (InterfaceByName : String → Except String Interface)
    (interfaceName : String) : Except String String :=
  match InterfaceByName interfaceName with
  | .error err => .error ("failed to get interface: " ++ err)
  | .ok iface =>
    match iface.Addrs with
    | .error err => .error ("failed to get addresses: " ++ err)
    | .ok addrs =>
      match getLocalIPAddress.scan addrs with
      | some text => .ok text
      | none => .error ("no valid IPv4 address found for interface " ++ interfaceName)

/-! ## `strconv.Atoi` -/

/-- The two sentinel errors `strconv.ErrSyntax` and `strconv.ErrRange`. -/
inductive ConvErr where
  | ErrSyntax
  | ErrRange
deriving DecidableEq, Repr

/-- The struct `strconv.NumError`: failing function, input text, cause. -/
structure NumError where
  Func : String
  Num : String
  Err : ConvErr
deriving DecidableEq, Repr

/-- The size of Go `int` in bits (`strconv.IntSize`) on a 64-bit platform. -/
def intSize : Nat := 64

/-- The digit loop of `strconv.ParseUint` for base 10 and 64 bits: a character
that is not a decimal digit is a syntax error, a value above `2^64 - 1` a range
error, whichever comes first from the left. -/
def ParseUint.loop : List Char → Nat → Except ConvErr Nat
  | [], n => .ok n
  | c :: rest, n =>
    if ¬ c.isDigit then .error .ErrSyntax
    else if n ≥ (2 ^ 64 - 1) / 10 + 1 then .error .ErrRange
    else
      let n1 := n * 10 + (c.toNat - 48)
      if n1 > 2 ^ 64 - 1 then .error .ErrRange else ParseUint.loop rest n1

/-- The function `strconv.Atoi` (`ParseInt(s, 10, 0)`; its fast path for short
inputs computes the same result): an optional sign, then one or more decimal
digits, the value within the range of `int`. -/
def Atoi (s : String) : Except NumError Int :=
  let cs := s.toList
  let neg := cs.head? = some '-'
  let digits := if cs.head? = some '+' ∨ cs.head? = some '-' then cs.tail else cs
  if digits = [] then .error ⟨"Atoi", s, .ErrSyntax⟩
  else
    match ParseUint.loop digits 0 with
    | .error .ErrSyntax => .error ⟨"Atoi", s, .ErrSyntax⟩
    | .error .ErrRange => .error ⟨"Atoi", s, .ErrRange⟩
    | .ok un =>
      if ¬ neg ∧ un ≥ 2 ^ (intSize - 1) then .error ⟨"Atoi", s, .ErrRange⟩
      else if neg ∧ un > 2 ^ (intSize - 1) then .error ⟨"Atoi", s, .ErrRange⟩
      else .ok (if neg then -(un : Int) else (un : Int))

/-! ## `encoding/json`: the encoder on the three structs -/

/-- How the encoder writes one character of a string (HTML escaping on, the
default of `json.Marshal`; Go 1.22 and later): the quote and the backslash
behind a backslash, `\b \f \n \r \t` by their short forms, other control
characters and `<`, `>`, `&`, U+2028, U+2029 as `\u` and four hexadecimal
digits, everything else as is. -/
def jsonChar (c : Char) : String :=
  let n := c.toNat
  if n = 34 then "\\\""
  else if n = 92 then "\\\\"
  else if n = 8 then "\\b"
  else if n = 12 then "\\f"
  else if n = 10 then "\\n"
  else if n = 13 then "\\r"
  else if n = 9 then "\\t"
  else if n < 32 ∨ n = 60 ∨ n = 62 ∨ n = 38 then
    "\\u00" ++ String.mk (Nat.toDigits 16 (n / 16) ++ Nat.toDigits 16 (n % 16))
  else if n = 8232 then "\\u2028"
  else if n = 8233 then "\\u2029"
  else String.singleton c

/-- A Go string as a JSON string. -/
def jsonString (s : String) : String :=
  "\"" ++ String.join (s.toList.map jsonChar) ++ "\""

/-- A Go `bool` as JSON. -/
def jsonBool (b : Bool) : String := if b then "true" else "false"

/-- A `Record` as a JSON object: the fields in declaration order under the names of their `json` tags. -/
def jsonRecord (r : Record) : String :=
  "\x7b\"content\":" ++ jsonString r.Content ++
  ",\"name\":" ++ jsonString r.Name ++
  ",\"ttl\":" ++ toString r.TTL ++
  ",\"type\":" ++ jsonString r.Type_ ++
  ",\"disabled\":" ++ jsonBool r.Disabled ++ "\x7d"

/-- An `RRSet` as a JSON object. -/
def jsonRRSet (r : RRSet) : String :=
  "\x7b\"name\":" ++ jsonString r.Name ++
  ",\"type\":" ++ jsonString r.Type_ ++
  ",\"ttl\":" ++ toString r.TTL ++
  ",\"changetype\":" ++ jsonString r.ChangeType ++
  ",\"records\":[" ++ ",".intercalate (r.Records.map jsonRecord) ++ "]\x7d"

/-- The function `json.Marshal` on a `DNSUpdate` whose slices are not `nil`
(those of `main.go` are slice literals): compact output, no error. -/
def jsonMarshal (u : DNSUpdate) : Except String String :=
  .ok ("\x7b\"rrsets\":[" ++ ",".intercalate (u.RRSets.map jsonRRSet) ++ "]\x7d")

/-! ## `net/url`: parsed URLs -/

/-- A `*url.URL` as far as it is read here: scheme, host (with the port), path,
the hint `RawPath` and the query; no opaque part, no user information, no
fragment. -/
structure URL where
  Scheme : String
  Host : String
  Path : String
  RawPath : String
  RawQuery : String
deriving DecidableEq, Repr

/-- The bytes of the UTF-8 encoding of a character. -/
def utf8 (c : Char) : List Nat :=
  let n := c.toNat
  if n < 128 then [n]
  else if n < 2048 then [192 + n / 64, 128 + n % 64]
  else if n < 65536 then [224 + n / 4096, 128 + n / 64 % 64, 128 + n % 64]
  else [240 + n / 262144, 128 + n / 4096 % 64, 128 + n / 64 % 64, 128 + n % 64]

/-- The two parts of a URL that are escaped here (`encodePath`, `encodeHost`). -/
inductive Encoding where
  | path
  | host
deriving DecidableEq, Repr

/-- The function `shouldEscape` of `net/url` on a byte, for the two modes:
letters, digits and `- _ . ~` are never escaped; the host keeps
`! $ & ' ( ) * + , ; = : [ ] < > "`, the path keeps `$ & + , / : ; = @`;
every other byte is escaped. -/
def shouldEscape (b : Nat) (mode : Encoding) : Bool :=
  if (97 ≤ b ∧ b ≤ 122) ∨ (65 ≤ b ∧ b ≤ 90) ∨ (48 ≤ b ∧ b ≤ 57) then false
  else if mode = .host ∧ b ∈ [33, 36, 38, 39, 40, 41, 42, 43, 44, 59, 61, 58, 91, 93, 60, 62, 34] then
    false
  else if b ∈ [45, 95, 46, 126] then false
  else if mode = .path ∧ b ∈ [36, 38, 43, 44, 47, 58, 59, 61, 64] then false
  else true

/-- The upper-case hexadecimal digit of a value below sixteen. -/
def upperhex (n : Nat) : Char := (Nat.digitChar n).toUpper

/-- The function `escape` of `net/url` on one character: the bytes of its UTF-8
encoding, each kept or written as `%` and two upper-case hexadecimal digits. -/
def escapeChar (mode : Encoding) (c : Char) : List Char :=
  if c.toNat < 128 ∧ shouldEscape c.toNat mode = false then [c]
  else (utf8 c).flatMap fun b => ['%', upperhex (b / 16), upperhex (b % 16)]

/-- The function `escape` of `net/url` for the path and the host. -/
def escape (s : String) (mode : Encoding) : String :=
  String.mk (s.toList.flatMap (escapeChar mode))

/-- The function `validEncoded` of `net/url` for the path: every byte is one
of `! $ & ' ( ) * + , ; = : @ [ ] %` or a byte that `escape` leaves alone. -/
def validEncoded (s : String) : Bool :=
  s.toList.all fun c =>
    c.toNat ∈ [33, 36, 38, 39, 40, 41, 42, 43, 44, 59, 61, 58, 64, 91, 93, 37] ||
      (c.toNat < 128 && shouldEscape c.toNat .path = false)

/-- The value of a hexadecimal digit (`ishex`, `unhex`). -/
def unhex (c : Char) : Option Nat :=
  let n := c.toNat
  if 48 ≤ n ∧ n ≤ 57 then some (n - 48)
  else if 97 ≤ n ∧ n ≤ 102 then some (n - 97 + 10)
  else if 65 ≤ n ∧ n ≤ 70 then some (n - 65 + 10)
  else none

/-- The function `unescape` of `net/url` for the path, on bytes: `%` and two
hexadecimal digits give one byte, a `%` that is not followed by two
hexadecimal digits is an error (`none`). -/
def unescape : List Char → Option (List Nat)
  | [] => some []
  | c :: rest =>
    if c = '%' then
      match rest with
      | h :: l :: rest2 =>
        match unhex h, unhex l, unescape rest2 with
        | some a, some b, some bs => some ((a * 16 + b) :: bs)
        | _, _, _ => none
      | _ => none
    else
      match unescape rest with
      | some bs => some (utf8 c ++ bs)
      | none => none

/-- The method `URL.EscapedPath`: `RawPath` when it is a valid encoding of
`Path`, otherwise the default escaping of `Path`. -/
def URL.EscapedPath (u : URL) : String :=
  if u.RawPath ≠ "" ∧ validEncoded u.RawPath = true ∧
      unescape u.RawPath.toList = some (u.Path.toList.flatMap utf8) then u.RawPath
  else if u.Path = "*" then "*"
  else escape u.Path .path

/-- The method `URL.String` for a URL without opaque part, user information
and fragment. -/
def URL.String (u : URL) : String :=
  let scheme := if u.Scheme ≠ "" then u.Scheme ++ ":" else ""
  let authority :=
    if u.Scheme ≠ "" ∨ u.Host ≠ "" then
      (if u.Host ≠ "" ∨ u.Path ≠ "" then "//" else "") ++
        (if u.Host ≠ "" then escape u.Host .host else "")
    else ""
  let path := u.EscapedPath
  let slash := if path ≠ "" ∧ path.toList.head? ≠ some '/' ∧ u.Host ≠ "" then "/" else ""
  let dot :=
    if scheme ++ authority ++ slash = "" ∧ ':' ∈ path.toList.takeWhile (fun c => c ≠ '/') then "./"
    else ""
  let query := if u.RawQuery ≠ "" then "?" ++ u.RawQuery else ""
  scheme ++ authority ++ slash ++ dot ++ path ++ query

/-- The function `removeEmptyPort` of `net/http`: a host that ends in a colon
after its last `]` loses the colon. -/
def removeEmptyPort (host : String) : String :=
  let cs := host.toList
  let last (c : Char) : Option Nat := (cs.reverse.indexOf? c).map fun i => cs.length - 1 - i
  let hasPort : Bool :=
    match last ':', last ']' with
    | some i, some j => j < i
    | some _, none => true
    | none, _ => false
  if hasPort ∧ cs.getLast? = some ':' then String.mk cs.dropLast else host

/-! ## `net/http`: requests -/

/-- How `strconv.Quote` (the verb `%q`) writes one character: the quote and the
backslash behind a backslash, `\a \b \f \n \r \t \v` by their short forms,
other ASCII control characters as `\x` and two hexadecimal digits, everything
else as is (non-printable characters beyond ASCII are not told apart). -/
def quoteChar (c : Char) : String :=
  let n := c.toNat
  if n = 34 then "\\\""
  else if n = 92 then "\\\\"
  else if n = 7 then "\\a"
  else if n = 8 then "\\b"
  else if n = 12 then "\\f"
  else if n = 10 then "\\n"
  else if n = 13 then "\\r"
  else if n = 9 then "\\t"
  else if n = 11 then "\\v"
  else if n < 32 ∨ n = 127 then
    "\\x" ++ String.mk (Nat.toDigits 16 (n / 16) ++ Nat.toDigits 16 (n % 16))
  else String.singleton c

/-- The function `strconv.Quote`: the text between double quotes, character by character. -/
def Quote (s : String) : String :=
  "\"" ++ String.join (s.toList.map quoteChar) ++ "\""

/-- Token characters of RFC 7230 (`httpguts.IsTokenRune`, `validHeaderFieldByte`):
ASCII letters and digits and the fifteen marks that follow,
given by their code points. -/
def isTokenChar (c : Char) : Bool :=
  c.isAlphanum || c.toNat ∈ [33, 35, 36, 37, 38, 39, 42, 43, 45, 46, 94, 95, 96, 124, 126]

/-- The letter-case pass of `textproto.CanonicalMIMEHeaderKey`: upper case at
the start and after a hyphen, lower case elsewhere. -/
def canonicalCase : List Char → Bool → List Char
  | [], _ => []
  | c :: rest, upper =>
    let c1 := if upper then c.toUpper else c.toLower
    c1 :: canonicalCase rest (c1 = '-')

/-- The function `textproto.CanonicalMIMEHeaderKey`: a key with a character that
is not a token character is returned unchanged. -/
def CanonicalMIMEHeaderKey (s : String) : String :=
  if s.toList.all isTokenChar then String.mk (canonicalCase s.toList true) else s

/-- A `http.Header`: the canonical keys with their values. -/
abbrev Header := List (String × List String)

/-- The method `Header.Set`: the values of the canonical key are replaced by the single value. -/
def Header.Set (h : Header) (key value : String) : Header :=
  h.filter (fun kv => kv.1 ≠ CanonicalMIMEHeaderKey key) ++ [(CanonicalMIMEHeaderKey key, [value])]

/-- The method `Header.Get`: the first value of the canonical key, the empty string when there is none. -/
def Header.Get (h : Header) (key : String) : String :=
  match h.find? (fun kv => kv.1 = CanonicalMIMEHeaderKey key) with
  | some (_, v :: _) => v
  | _ => ""

/-- A `*http.Request` as far as `main.go` sets it: method, parsed URL, headers, body. -/
structure Request where
  Method : String
  URL : URL
  Header : Header
  Body : String
deriving DecidableEq, Repr

/-- A `*http.Response` as far as `main.go` reads it. -/
structure Response where
  StatusCode : Int
deriving DecidableEq, Repr

/-- The function `http.NewRequest`: an empty method means `GET`, a method that
is not a token is refused, then the URL is parsed (`urlParse` is `url.Parse`),
an empty port is removed from its host and the request is built around the
parsed URL, with no headers. -/
def NewRequest (urlParse : String → Except String URL) (method url body : String) :
    Except String Request :=
  let method := if method = "" then "GET" else method
  if ¬ (method.toList ≠ [] ∧ method.toList.all isTokenChar) then
    .error ("net/http: invalid method " ++ Quote method)
  else
    match urlParse url with
    | .error err => .error err
    | .ok u =>
      .ok { Method := method, URL := { u with Host := removeEmptyPort u.Host }, Header := [],
            Body := body }

/-! ## `net/http`: the client -/

/-- What is outside the process during a call of `client.Do`. -/
structure Network where
  /-- The method `RoundTrip` of the transport: the request is sent over the
  network once; the response with the value of its `Location` header, or a
  transport error. -/
  RoundTrip : Request → Except String (Response × String)
  /-- The method `URL.Parse` on the URL of a request: the `Location` of a redirect resolved against it. -/
  Resolve : URL → String → Except String URL
  /-- The headers that the client gives to the request that follows a redirect,
  from the first request, the last request and the new URL. -/
  RedirectHeader : Request → Request → URL → Header

/-- The function `redirectBehavior` of `net/http` for a request whose body can
be sent again (`http.NewRequest` sets `GetBody` for a `*bytes.Buffer`): `none`
when the status is no redirect, otherwise the method of the next request and
whether it carries the body. -/
def redirectBehavior (reqMethod : String) (statusCode : Int) : Option (String × Bool) :=
  if statusCode = 301 ∨ statusCode = 302 ∨ statusCode = 303 then
    some (if reqMethod ≠ "GET" ∧ reqMethod ≠ "HEAD" then "GET" else reqMethod, false)
  else if statusCode = 307 ∨ statusCode = 308 then some (reqMethod, true)
  else none

/-- The function `urlErrorOp` of `net/http`: the method with its first letter
kept and the others in lower case, when it is printable ASCII. -/
def urlErrorOp (method : String) : String :=
  if method = "" then "Get"
  else if method.toList.all (fun c => 32 ≤ c.toNat ∧ c.toNat ≤ 126) then
    String.mk (method.toList.take 1 ++ (method.toList.drop 1).map Char.toLower)
  else method

/-- The text of a `*url.Error`: operation, quoted URL, cause. -/
def urlError (op url err : String) : String := op ++ " " ++ Quote url ++ ": " ++ err

/-- What the client does with one request: it is done, with a response or an
error, or it goes on with the request that follows the redirect to `loc`. -/
inductive Step where
  | done (result : Except String Response)
  | follow (next : Request) (loc : String)

/-- One pass of the loop of `(*http.Client).do`: the request `req` goes to the
transport; a response that is no redirect, or has no `Location`, is returned;
otherwise the next request is built from the first request `ireq`. -/
def Client.step (net : Network) (ireq req : Request) : Step :=
  match net.RoundTrip req with
  | .error err => .done (.error (urlError (urlErrorOp ireq.Method) (URL.String req.URL) err))
  | .ok (resp, loc) =>
    match redirectBehavior req.Method resp.StatusCode with
    | none => .done (.ok resp)
    | some (redirectMethod, includeBody) =>
      if loc = "" then .done (.ok resp)
      else
        match net.Resolve req.URL loc with
        | .error err =>
          .done (.error (urlError (urlErrorOp ireq.Method) (URL.String req.URL)
            ("failed to parse Location header " ++ Quote loc ++ ": " ++ err)))
        | .ok u =>
          .follow
            { Method := redirectMethod
              URL := u
              Header := net.RedirectHeader ireq req u
              Body := if includeBody then ireq.Body else "" } loc

/-- The loop of `(*http.Client).do`: the requests handed to the transport, in
order, and the result of the call; `allowed` is the number of redirects that
may still be followed. -/
def Client.send (net : Network) (ireq : Request) : Nat → Request → List Request × Except String Response
  | 0, req =>
    match Client.step net ireq req with
    | .done result => ([req], result)
    | .follow _ loc =>
      ([req], .error (urlError (urlErrorOp ireq.Method) loc "stopped after 10 redirects"))
  | allowed + 1, req =>
    match Client.step net ireq req with
    | .done result => ([req], result)
    | .follow next _ =>
      let (more, result) := Client.send net ireq allowed next
      (req :: more, result)

/-- The method `(*http.Client).Do` of the default client (`&http.Client{}`, no
`CheckRedirect`: at most ten requests): the requests it puts on the network
and its result. -/
def Client.Do (net : Network) (req : Request) : List Request × Except String Response :=
  Client.send net req 9 req

/-! ## The process: environment, outside world, observable events -/

/-- The environment of the process: a variable is unset (`none`) or has a value. -/
abbrev Env := String → Option String

/-- The function `os.Getenv`: the value of the variable, the empty string when it is unset. -/
def Getenv (env : Env) (key : String) : String := (env key).getD ""

/-- What the host, the network and the library answer during one iteration of the loop. -/
structure Runtime where
  /-- The function `net.InterfaceByName` on the host. -/
  InterfaceByName : String → Except String Interface
  /-- The function `json.Marshal` on the update document. -/
  Marshal : DNSUpdate → Except String String
  /-- The function `url.Parse`, called by `http.NewRequest`. -/
  urlParse : String → Except String URL
  /-- The method `(*http.Client).Do`: a response, or a transport error. -/
  Do : Request → Except String Response

/-- The outside world of an iteration whose HTTP client is the default client
of `net/http` over the network `net`. -/
def clientRuntime (InterfaceByName : String → Except String Interface)
    (Marshal : DNSUpdate → Except String String) (urlParse : String → Except String URL)
    (net : Network) : Runtime :=
  { InterfaceByName := InterfaceByName
    Marshal := Marshal
    urlParse := urlParse
    Do := fun req => (Client.Do net req).2 }

/-- What the process does to the outside world, in order. -/
inductive Event where
  /-- Text written to standard output (`fmt.Println`, `fmt.Printf`). -/
  | stdout (text : String)
  /-- A call of `getLocalIPAddress`, which queries the host for the interface. -/
  | resolve (interfaceName : String)
  /-- A call of `client.Do` with the request that `main` has built. -/
  | send (req : Request)
  /-- A completed `time.Sleep` of the duration, in nanoseconds. -/
  | sleep (d : Int)
deriving DecidableEq, Repr

/-- How one pass through the body of the `for` loop ends: it reaches the end of
the body (`next`) or executes `return` (`exit`). -/
inductive Outcome where
  | next
  | exit
deriving DecidableEq, Repr

/-- What `main` has come to after the iterations it was given: it has returned
(`exited`) or is still in the loop (`running`). -/
inductive Status where
  | exited
  | running
deriving DecidableEq, Repr

/-- The constant `time.Minute`, in nanoseconds. -/
def Minute : Int := 60 * 1000000000

/-- The constant `http.StatusNoContent`. -/
def StatusNoContent : Int := 204

/-- Lines 75-82 of `main`: the TTL is `defaultTTL` unless `PDNS_TTL` is not
empty and `strconv.Atoi` accepts it. -/
def main.ttl (ttlStr : String) : Int :=
  if ttlStr ≠ "" then
    match Atoi ttlStr with
    | .ok ttlParsed => ttlParsed
    | .error _ => defaultTTL
  else defaultTTL

/-- Lines 93-112 of `main`: the record, the record set around it and the update document. -/
def main.update (localIP ownName zoneName : String) (ttl : Int) : DNSUpdate :=
  let record : Record :=
    { Content := localIP
      Name := ownName ++ "." ++ zoneName ++ "."
      TTL := ttl
      Type_ := "A"
      Disabled := false }
  let rrset : RRSet :=
    { Name := record.Name
      Type_ := record.Type_
      TTL := record.TTL
      ChangeType := "REPLACE"
      Records := [record] }
  { RRSets := [rrset] }

/-- Lines 121-131 of `main`: the URL, `http.NewRequest` and the two headers. -/
def main.request (urlParse : String → Except String URL)
    (apiKey pdnsServer zoneName body : String) : Except String Request :=
  let powerDNSAPIURL := "http://" ++ pdnsServer ++ "/api/v1/servers/localhost/zones/" ++ zoneName
  match NewRequest urlParse "PATCH" powerDNSAPIURL body with
  | .error err => .error err
  | .ok req =>
    let h1 := Header.Set req.Header "X-API-Key" apiKey
    let h2 := Header.Set h1 "Content-Type" "application/json"
    .ok { req with Header := h2 }

/-- The body of the `for` loop of `main` (lines 85-155): the events of one
iteration and how it ends. -/
def main.iteration (rt : Runtime) (apiKey ownName pdnsServer interfaceName zoneName : String)
    (ttl : Int) : List Event × Outcome :=
  match getLocalIPAddress rt.InterfaceByName interfaceName with
  | .error err =>
    ([.resolve interfaceName,
      .stdout ("Error getting local IP address: " ++ err ++ "\n")], .exit)
  | .ok localIP =>
    match rt.Marshal (main.update localIP ownName zoneName ttl) with
    | .error err =>
      ([.resolve interfaceName,
        .stdout ("Error encoding JSON: " ++ err ++ "\n")], .exit)
    | .ok body =>
      match main.request rt.urlParse apiKey pdnsServer zoneName body with
      | .error err =>
        ([.resolve interfaceName,
          .stdout ("Error creating request: " ++ err ++ "\n")], .exit)
      | .ok req =>
        match rt.Do req with
        | .error err =>
          ([.resolve interfaceName, .send req,
            .stdout ("Error sending request: " ++ err ++ "\n")], .exit)
        | .ok resp =>
          ([.resolve interfaceName, .send req,
            (if resp.StatusCode ≠ StatusNoContent then
              .stdout ("Request failed: status code " ++ toString resp.StatusCode ++ "\n")
            else
              .stdout "Resource record updated successfully!\n"),
            .sleep (30 * Minute),
            .stdout "Successfully updated DNS record!\n",
            .stdout ("IP:  " ++ localIP ++ "\n"),
            .stdout "Sleeping for 30 minutes...\n"], .next)

/-- The `for` loop of `main` (line 84), run for at most `fuel` iterations from
iteration number `i`; `rt i` is the outside world during iteration `i`. -/
def main.loop (rt : Nat → Runtime) (apiKey ownName pdnsServer interfaceName zoneName : String)
    (ttl : Int) : Nat → Nat → List Event × Status
  | 0, _ => ([], .running)
  | fuel + 1, i =>
    match main.iteration (rt i) apiKey ownName pdnsServer interfaceName zoneName ttl with
    | (events, .exit) => (events, .exited)
    | (events, .next) =>
      let (later, status) :=
        main.loop rt apiKey ownName pdnsServer interfaceName zoneName ttl fuel (i + 1)
      (events ++ later, status)

/-- The text printed when a required variable is missing (line 71). -/
def usage : String :=
  "Please set the environment variables PDNS_API_KEY, PDNS_OWN_NAME, PDNS_SERVER, PDNS_INTERFACE, and PDNS_ZONE\n"

/-- The function `main` (lines 61-157), with the loop run for at most `fuel` iterations. -/
def main (env : Env) (rt : Nat → Runtime) (fuel : Nat) : List Event × Status :=
  let apiKey := Getenv env "PDNS_API_KEY"
  let ownName := Getenv env "PDNS_OWN_NAME"
  let pdnsServer := Getenv env "PDNS_SERVER"
  let interfaceName := Getenv env "PDNS_INTERFACE"
  let ttlStr := Getenv env "PDNS_TTL"
  let zoneName := Getenv env "PDNS_ZONE"
  if apiKey = "" ∨ ownName = "" ∨ pdnsServer = "" ∨ interfaceName = "" ∨ zoneName = "" then
    ([.stdout usage], .exited)
  else
    let ttl := main.ttl ttlStr
    main.loop rt apiKey ownName pdnsServer interfaceName zoneName ttl fuel 0

/-! ## Definitions used to state the properties -/

/-- Value of a list of decimal digits read from the left, continuing from `n`. -/
def digitsVal (ds : List Char) (n : Nat) : Nat :=
  ds.foldl (fun n c => n * 10 + (c.toNat - 48)) n

/-- The four bytes of an entry of an address list that is a valid IPv4 address;
`none` for an IPv6 entry and for an entry that is not an IP network. -/
def Addr.ipv4? : Addr → Option IP
  | .IPNet ip _ => IP.To4 ip
  | .other _ => none

/-- The requests among the events, in order. -/
def requestsOf : List Event → List Request
  | [] => []
  | .send req :: rest => req :: requestsOf rest
  | _ :: rest => requestsOf rest

/-- The outbound HTTP requests behind the events: for each call of `client.Do`,
the requests that the client puts on the network `net`. -/
def outbound (net : Network) (events : List Event) : List Request :=
  (requestsOf events).flatMap fun req => (Client.Do net req).1

/-- Whether a variable is unset or empty in the environment. -/
def missing (env : Env) (key : String) : Prop := env key = none ∨ env key = some ""

instance (env : Env) (key : String) : Decidable (missing env key) := by
  unfold missing
  infer_instance

/-! ## Concrete inputs -/

/-- An interface `eth0` whose address list holds a non-IP entry, an IPv6
link-local address and the IPv4 address 203.0.113.5, in this order. -/
def eth0 : Interface :=
  { Name := "eth0"
    Addrs := .ok
      [.other "link",
       .IPNet [254, 128, 0, 0, 0, 0, 0, 0, 0, 0, 0, 0, 0, 0, 0, 1]
         [255, 255, 255, 255, 255, 255, 255, 255, 0, 0, 0, 0, 0, 0, 0, 0],
       .IPNet [203, 0, 113, 5] [255, 255, 255, 0]] }

/-- A host whose only interface is `eth0`. -/
def host (name : String) : Except String Interface :=
  if name = "eth0" then .ok eth0 else .error "route ip+net: no such network interface"

/-- An environment with the five required variables set, the server and the
zone as given, and `PDNS_TTL` as given (`none`: unset). -/
def sampleEnv (server zone : String) (ttl : Option String) : Env := fun key =>
  if key = "PDNS_API_KEY" then some "secret"
  else if key = "PDNS_OWN_NAME" then some "host1"
  else if key = "PDNS_SERVER" then some server
  else if key = "PDNS_INTERFACE" then some "eth0"
  else if key = "PDNS_ZONE" then some zone
  else if key = "PDNS_TTL" then ttl
  else none

/-- The rest of a list after the prefix, when it starts with the prefix. -/
def afterPrefix : List Char → List Char → Option (List Char)
  | [], rest => some rest
  | _ :: _, [] => none
  | p :: ps, c :: cs => if p = c then afterPrefix ps cs else none

/-- Whether a text is a host name of letters, digits, dots and hyphens,
followed or not by a colon and decimal digits. -/
def plainAuthority (cs : List Char) : Bool :=
  let name := cs.takeWhile (fun c => c ≠ ':')
  let port := (cs.dropWhile (fun c => c ≠ ':')).drop 1
  name ≠ [] && name.all (fun c => c.isAlphanum || c = '.' || c = '-') && port.all Char.isDigit

/-- A URL parser that does what `url.Parse` does on the texts it covers: a
text with an ASCII control character is refused as `url.Parse` refuses it; a
text `http://authority/path`, with a plain authority and a path without `?`,
`#` and `%`, gives the URL with that host and that path, `RawPath` being set
when the path is not its own escaping. Any other text is outside what this
parser covers and is refused. -/
def sampleParse (url : String) : Except String URL :=
  if url.toList.any (fun c => c.toNat < 32 || c.toNat = 127) then
    .error ("parse " ++ Quote url ++ ": net/url: invalid control character in URL")
  else
    match afterPrefix "http://".toList url.toList with
    | none => .error ("parse " ++ Quote url ++ ": not covered")
    | some rest =>
      let authority := rest.takeWhile (fun c => c ≠ '/')
      let path := String.mk (rest.dropWhile (fun c => c ≠ '/'))
      if plainAuthority authority ∧ path.toList.all (fun c => c ≠ '?' ∧ c ≠ '#' ∧ c ≠ '%') then
        .ok { Scheme := "http"
              Host := String.mk authority
              Path := path
              RawPath := if escape path .path = path then "" else path
              RawQuery := "" }
      else .error ("parse " ++ Quote url ++ ": not covered")

/-- The outside world of one iteration: the host above, the JSON encoder, the
URL parser above and the given behaviour of the HTTP client. -/
def sampleRuntime (Do : Request → Except String Response) : Runtime :=
  { InterfaceByName := host
    Marshal := jsonMarshal
    urlParse := sampleParse
    Do := Do }

/-- The update document of the end-to-end scenario of the specification. -/
def scenarioDocument : DNSUpdate :=
  { RRSets :=
      [{ Name := "host1.example.com."
         Type_ := "A"
         TTL := 300
         ChangeType := "REPLACE"
         Records :=
           [{ Content := "203.0.113.5"
              Name := "host1.example.com."
              TTL := 300
              Type_ := "A"
              Disabled := false }] }] }

/-- The JSON text of the end-to-end scenario of the specification. -/
def scenarioBody : String :=
  "\x7b\"rrsets\":[\x7b\"name\":\"host1.example.com.\",\"type\":\"A\",\"ttl\":300,\"changetype\":\"REPLACE\",\"records\":[\x7b\"content\":\"203.0.113.5\",\"name\":\"host1.example.com.\",\"ttl\":300,\"type\":\"A\",\"disabled\":false\x7d]\x7d]\x7d"

/-- The JSON text with the record name that ends in two dots. -/
def twoDotBody : String :=
  "\x7b\"rrsets\":[\x7b\"name\":\"host1.example.com..\",\"type\":\"A\",\"ttl\":300,\"changetype\":\"REPLACE\",\"records\":[\x7b\"content\":\"203.0.113.5\",\"name\":\"host1.example.com..\",\"ttl\":300,\"type\":\"A\",\"disabled\":false\x7d]\x7d]\x7d"

/-- The request of the sample environment for a server, a zone and a body. -/
def sampleRequest (server zone body : String) : Request :=
  { Method := "PATCH"
    URL :=
      { Scheme := "http"
        Host := server
        Path := "/api/v1/servers/localhost/zones/" ++ zone
        RawPath := ""
        RawQuery := "" }
    Header := [("X-Api-Key", ["secret"]), ("Content-Type", ["application/json"])]
    Body := body }

/-- A network whose server answers a request for the zone `example.com` with
status 307 and the location of the zone `example.com.`, and any other request
with status 204; the client sends the headers of the first request again, with
the URL of the last request as `Referer`. -/
def redirectingNetwork : Network :=
  { RoundTrip := fun req =>
      if req.URL.Path = "/api/v1/servers/localhost/zones/example.com" then
        .ok (⟨307⟩, "http://ns.example:8081/api/v1/servers/localhost/zones/example.com.")
      else .ok (⟨204⟩, "")
    Resolve := fun _ loc => sampleParse loc
    RedirectHeader := fun ireq last _ => Header.Set ireq.Header "Referer" (URL.String last.URL) }

/-- A network whose server answers every request with status 204. -/
def plainNetwork : Network :=
  { RoundTrip := fun _ => .ok (⟨204⟩, "")
    Resolve := fun _ loc => sampleParse loc
    RedirectHeader := fun ireq last _ => Header.Set ireq.Header "Referer" (URL.String last.URL) }

/-! ## Decimal text and `strconv.Atoi` -/

theorem digitChar_spec : ∀ k, k < 10 →
    (Nat.digitChar k).isDigit = true ∧ (Nat.digitChar k).toNat - 48 = k ∧
      Nat.digitChar k ≠ '-' ∧ Nat.digitChar k ≠ '+' := by
  decide

theorem toDigitsCore_spec (fuel : Nat) : ∀ (n : Nat) (ds : List Char), n < fuel →
    ∃ pre, Nat.toDigitsCore 10 fuel n ds = pre ++ ds ∧ pre ≠ [] ∧
      (∀ c ∈ pre, c.isDigit = true) ∧ ∀ m, digitsVal pre m = m * 10 ^ pre.length + n := by
  induction fuel with
  | zero => intro n ds h; omega
  | succ fuel ih =>
    intro n ds h
    have hd := digitChar_spec (n % 10) (Nat.mod_lt _ (by decide))
    unfold Nat.toDigitsCore
    by_cases h0 : n / 10 = 0
    · simp only [h0, if_true]
      refine ⟨[Nat.digitChar (n % 10)], rfl, by simp, ?_, ?_⟩
      · intro c hc
        simp at hc
        subst hc
        exact hd.1
      · intro m
        simp only [digitsVal, List.foldl, List.length_singleton, pow_one, hd.2.1]
        omega
    · simp only [h0, if_false]
      obtain ⟨pre, hpre, hne, hdig, hval⟩ := ih (n / 10) (Nat.digitChar (n % 10) :: ds) (by omega)
      refine ⟨pre ++ [Nat.digitChar (n % 10)], ?_, by simp, ?_, ?_⟩
      · rw [hpre]; simp
      · intro c hc
        rcases List.mem_append.1 hc with hc | hc
        · exact hdig c hc
        · simp at hc
          subst hc
          exact hd.1
      · intro m
        have := hval m
        simp only [digitsVal] at this ⊢
        rw [List.foldl_append, this]
        simp only [List.foldl, hd.2.1, List.length_append, List.length_singleton, pow_succ]
        have h1 := Nat.div_add_mod n 10
        nlinarith [h1]

theorem toDigits_spec (n : Nat) :
    Nat.toDigits 10 n ≠ [] ∧ (∀ c ∈ Nat.toDigits 10 n, c.isDigit = true) ∧
      digitsVal (Nat.toDigits 10 n) 0 = n := by
  obtain ⟨pre, hpre, hne, hdig, hval⟩ := toDigitsCore_spec (n + 1) n [] (Nat.lt_succ_self n)
  have : Nat.toDigits 10 n = pre := by simp [Nat.toDigits, hpre]
  rw [this]
  exact ⟨hne, hdig, by simpa using hval 0⟩

theorem toString_int_toList (n : Int) :
    (toString n).toList =
      if n < 0 then '-' :: Nat.toDigits 10 n.natAbs else Nat.toDigits 10 n.natAbs := by
  cases n with
  | ofNat m =>
    have : ¬ ((Int.ofNat m) < 0) := by simp
    simp only [this, if_false]
    rfl
  | negSucc m =>
    have : (Int.negSucc m) < 0 := Int.negSucc_lt_zero m
    simp only [this, if_true]
    rfl

theorem isDigit_ne_sign (c : Char) (h : c.isDigit = true) : c ≠ '-' ∧ c ≠ '+' := by
  constructor <;> (rintro rfl; exact absurd h (by decide))

theorem digitsVal_ge (ds : List Char) : ∀ n, n ≤ digitsVal ds n := by
  induction ds with
  | nil => intro n; exact Nat.le_refl _
  | cons c rest ih =>
    intro n
    have := ih (n * 10 + (c.toNat - 48))
    simp only [digitsVal, List.foldl] at this ⊢
    omega

theorem ParseUint_loop_digits (ds : List Char) : ∀ n, (∀ c ∈ ds, c.isDigit = true) →
    digitsVal ds n ≤ 2 ^ 63 → ParseUint.loop ds n = .ok (digitsVal ds n) := by
  induction ds with
  | nil => intro n _ _; rfl
  | cons c rest ih =>
    intro n hdig hle
    have hc : c.isDigit = true := hdig c (List.mem_cons_self _ _)
    have hge := digitsVal_ge rest (n * 10 + (c.toNat - 48))
    have hstep : digitsVal (c :: rest) n = digitsVal rest (n * 10 + (c.toNat - 48)) := rfl
    rw [hstep] at hle
    have h1 : ¬ (n ≥ (2 ^ 64 - 1) / 10 + 1) := by norm_num; omega
    have h2 : ¬ (n * 10 + (c.toNat - 48) > 2 ^ 64 - 1) := by norm_num; omega
    rw [ParseUint.loop]
    simp only [hc, not_true_eq_false, if_false, h1, h2]
    rw [hstep]
    exact ih _ (fun d hd => hdig d (List.mem_cons_of_mem _ hd)) hle

theorem ParseUint_loop_value (ds : List Char) : ∀ n v, ParseUint.loop ds n = .ok v →
    v = digitsVal ds n := by
  induction ds with
  | nil =>
    intro n v h
    simp only [ParseUint.loop, Except.ok.injEq] at h
    exact h.symm
  | cons c rest ih =>
    intro n v h
    rw [ParseUint.loop] at h
    split at h
    · exact absurd h (by simp)
    · split at h
      · exact absurd h (by simp)
      · simp only at h
        split at h
        · exact absurd h (by simp)
        · exact ih _ v h

theorem Atoi_signed (s : String) (neg : Bool) (c : Char) (rest : List Char)
    (hs : s.data = if neg then '-' :: c :: rest else c :: rest) (hc : c.isDigit = true) :
    Atoi s =
      match ParseUint.loop (c :: rest) 0 with
      | .error .ErrSyntax => .error ⟨"Atoi", s, .ErrSyntax⟩
      | .error .ErrRange => .error ⟨"Atoi", s, .ErrRange⟩
      | .ok un =>
        if neg = false ∧ un ≥ 2 ^ 63 then .error ⟨"Atoi", s, .ErrRange⟩
        else if neg = true ∧ un > 2 ^ 63 then .error ⟨"Atoi", s, .ErrRange⟩
        else .ok (if neg = true then -(un : Int) else (un : Int)) := by
  have hsign := isDigit_ne_sign c hc
  unfold Atoi
  cases neg with
  | false =>
    simp only [Bool.false_eq_true, if_false] at hs
    simp [String.toList, hs, hsign.1, hsign.2, intSize]
  | true =>
    simp only [if_true] at hs
    simp [String.toList, hs, intSize]

theorem Atoi_digits (s : String) (neg : Bool) (ds : List Char)
    (hs : s.toList = if neg then '-' :: ds else ds) (hne : ds ≠ [])
    (hdig : ∀ c ∈ ds, c.isDigit = true) (hle : digitsVal ds 0 ≤ 2 ^ 63)
    (hpos : neg = false → digitsVal ds 0 < 2 ^ 63) :
    Atoi s = .ok (if neg then -(digitsVal ds 0 : Int) else (digitsVal ds 0 : Int)) := by
  obtain ⟨c, rest, rfl⟩ := List.exists_cons_of_ne_nil hne
  have hc := isDigit_ne_sign c (hdig c (List.mem_cons_self _ _))
  have hloop := ParseUint_loop_digits (c :: rest) 0 hdig hle
  unfold Atoi
  cases neg with
  | false =>
    have hlt := hpos rfl
    simp only [Bool.false_eq_true, if_false] at hs ⊢
    have hs1 : s.data = c :: rest := hs
    simp [hs1, hc.1, hc.2, hloop, intSize]
    omega
  | true =>
    simp only [if_true] at hs ⊢
    have hs1 : s.data = '-' :: c :: rest := hs
    simp [hs1, hloop, intSize]
    omega

theorem Atoi_toString (n : Int) (hlo : -(2 ^ 63) ≤ n) (hhi : n < 2 ^ 63) :
    Atoi (toString n) = .ok n := by
  obtain ⟨hne, hdig, hval⟩ := toDigits_spec n.natAbs
  have h := Atoi_digits (toString n) (decide (n < 0)) (Nat.toDigits 10 n.natAbs)
    (by rw [toString_int_toList]; by_cases h : n < 0 <;> simp [h]) hne hdig
    (by rw [hval]; omega) (by intro h; rw [hval]; simp at h; omega)
  rw [h, hval]
  by_cases h0 : n < 0
  · simp only [h0, decide_True, if_true]
    congr 1
    omega
  · simp only [h0, decide_False, Bool.false_eq_true, if_false]
    congr 1
    omega

theorem Atoi_out_of_range (n : Int) (h : n < -(2 ^ 63) ∨ 2 ^ 63 ≤ n) :
    ∃ err, Atoi (toString n) = .error err := by
  obtain ⟨hne, hdig, hval⟩ := toDigits_spec n.natAbs
  obtain ⟨c, rest, hcr⟩ := List.exists_cons_of_ne_nil hne
  have hc : c.isDigit = true := by rw [hcr] at hdig; exact hdig c (List.mem_cons_self _ _)
  have hl : (toString n).data = if decide (n < 0) = true then '-' :: c :: rest else c :: rest := by
    have := toString_int_toList n
    rw [hcr] at this
    by_cases h0 : n < 0 <;> simpa [h0] using this
  have hv := ParseUint_loop_value (c :: rest) 0
  rw [← hcr, hval] at hv
  rw [Atoi_signed (toString n) (decide (n < 0)) c rest hl hc]
  rw [← hcr]
  rcases hp : ParseUint.loop (Nat.toDigits 10 n.natAbs) 0 with e | un
  · cases e <;> exact ⟨_, rfl⟩
  · have hun := hv un hp
    by_cases h0 : n < 0
    · have hgt : 9223372036854775808 < un := by omega
      simp [h0, hgt]
    · have hge : 9223372036854775808 ≤ un := by omega
      simp [h0, hge]

theorem toString_int_injective (a b : Int) (h : toString a = toString b) : a = b := by
  have hl : (toString a).toList = (toString b).toList := by rw [h]
  rw [toString_int_toList, toString_int_toList] at hl
  obtain ⟨hnea, hda, hva⟩ := toDigits_spec a.natAbs
  obtain ⟨hneb, hdb, hvb⟩ := toDigits_spec b.natAbs
  by_cases ha : a < 0 <;> by_cases hb : b < 0 <;> simp only [ha, hb, if_true, if_false] at hl
  · have : Nat.toDigits 10 a.natAbs = Nat.toDigits 10 b.natAbs := List.tail_eq_of_cons_eq hl
    have : a.natAbs = b.natAbs := by rw [← hva, ← hvb, this]
    omega
  · obtain ⟨c, rest, hc⟩ := List.exists_cons_of_ne_nil hneb
    rw [hc] at hl hdb
    have := (isDigit_ne_sign c (hdb c (List.mem_cons_self _ _))).1
    exact absurd (List.head_eq_of_cons_eq hl).symm this
  · obtain ⟨c, rest, hc⟩ := List.exists_cons_of_ne_nil hnea
    rw [hc] at hl hda
    have := (isDigit_ne_sign c (hda c (List.mem_cons_self _ _))).1
    exact absurd (List.head_eq_of_cons_eq hl) this
  · have : a.natAbs = b.natAbs := by rw [← hva, ← hvb, hl]
    omega

/-! ## The lines of output are told apart -/

theorem failLine_third (x : String) :
    ("Request failed: status code " ++ x ++ "\n").data[2]? = some 'q' := by
  simp only [String.data_append]
  rfl

theorem ipLine_first (x : String) : ("IP:  " ++ x ++ "\n").data[0]? = some 'I' := by
  simp only [String.data_append]
  rfl

theorem failLine_injective (a b : Int)
    (h : "Request failed: status code " ++ toString a ++ "\n" =
      "Request failed: status code " ++ toString b ++ "\n") : a = b := by
  have hd := congrArg String.data h
  simp only [String.data_append] at hd
  have h1 := List.append_cancel_right hd
  have h2 := List.append_cancel_left h1
  exact toString_int_injective a b (String.ext h2)

theorem failLine_ne_fixed (x : String) :
    "Request failed: status code " ++ x ++ "\n" ≠ "Resource record updated successfully!\n" ∧
    "Request failed: status code " ++ x ++ "\n" ≠ "Successfully updated DNS record!\n" ∧
    "Request failed: status code " ++ x ++ "\n" ≠ "Sleeping for 30 minutes...\n" := by
  have h := failLine_third x
  refine ⟨?_, ?_, ?_⟩ <;>
  · intro he
    rw [he] at h
    exact absurd h (by decide)

theorem ipLine_ne (x y : String) :
    "IP:  " ++ x ++ "\n" ≠ "Resource record updated successfully!\n" ∧
    "IP:  " ++ x ++ "\n" ≠ "Request failed: status code " ++ y ++ "\n" := by
  have h := ipLine_first x
  constructor
  · intro he
    rw [he] at h
    exact absurd h (by decide)
  · intro he
    have h2 := failLine_third y
    rw [← he] at h2
    have : ("IP:  " ++ x ++ "\n").data[2]? = some ':' := by
      simp only [String.data_append]
      rfl
    rw [this] at h2
    exact absurd h2 (by decide)

/-! ## Evaluation of the concrete inputs -/

theorem host_resolves : getLocalIPAddress host "eth0" = .ok "203.0.113.5" := by rfl

theorem sample_marshal :
    jsonMarshal (main.update "203.0.113.5" "host1" "example.com" 300) = .ok scenarioBody := by rfl

theorem sample_request (body : String) :
    main.request sampleParse "secret" "ns.example:8081" "example.com" body =
      .ok (sampleRequest "ns.example:8081" "example.com" body) := by rfl

/-! ## The request -/

theorem NewRequest_PATCH (urlParse : String → Except String URL) (url body : String) :
    NewRequest urlParse "PATCH" url body =
      match urlParse url with
      | .error err => .error err
      | .ok u =>
        .ok { Method := "PATCH", URL := { u with Host := removeEmptyPort u.Host }, Header := [],
              Body := body } := by
  have hm : ¬ ¬ (("PATCH" : String).toList ≠ [] ∧ ("PATCH" : String).toList.all isTokenChar) := by
    decide
  have hp : ("PATCH" : String) ≠ "" := by decide
  simp only [NewRequest, hp, if_false, hm]

theorem request_ok (urlParse : String → Except String URL)
    (apiKey pdnsServer zoneName body : String) (u : URL)
    (h : urlParse ("http://" ++ pdnsServer ++ "/api/v1/servers/localhost/zones/" ++ zoneName) =
      .ok u) :
    main.request urlParse apiKey pdnsServer zoneName body =
      .ok { Method := "PATCH"
            URL := { u with Host := removeEmptyPort u.Host }
            Header := [("X-Api-Key", [apiKey]), ("Content-Type", ["application/json"])]
            Body := body } := by
  have hk1 : CanonicalMIMEHeaderKey "X-API-Key" = "X-Api-Key" := by decide
  have hk2 : CanonicalMIMEHeaderKey "Content-Type" = "Content-Type" := by decide
  simp only [main.request, NewRequest_PATCH, h, Header.Set, hk1, hk2]
  simp

theorem request_body (urlParse : String → Except String URL)
    (apiKey pdnsServer zoneName body : String) (req : Request)
    (h : main.request urlParse apiKey pdnsServer zoneName body = .ok req) : req.Body = body := by
  rcases hu : urlParse ("http://" ++ pdnsServer ++ "/api/v1/servers/localhost/zones/" ++ zoneName)
    with err | u
  · unfold main.request at h
    simp only [NewRequest_PATCH, hu] at h
    exact absurd h (by simp)
  · rw [request_ok urlParse apiKey pdnsServer zoneName body u hu] at h
    simp only [Except.ok.injEq] at h
    rw [← h]

/-! ## The client -/

theorem send_head (net : Network) (ireq : Request) (allowed : Nat) :
    ∀ req, ∃ more, (Client.send net ireq allowed req).1 = req :: more ∧ more.length ≤ allowed := by
  induction allowed with
  | zero =>
    intro req
    unfold Client.send
    split <;> exact ⟨[], rfl, Nat.le_refl _⟩
  | succ allowed ih =>
    intro req
    unfold Client.send
    split
    · exact ⟨[], rfl, Nat.zero_le _⟩
    · rename_i next loc hstep
      obtain ⟨more, hmore, hlen⟩ := ih next
      exact ⟨(Client.send net ireq allowed next).1, rfl, by rw [hmore]; simpa using hlen⟩

theorem send_done (net : Network) (ireq req : Request) (allowed : Nat)
    (result : Except String Response) (h : Client.step net ireq req = .done result) :
    Client.send net ireq allowed req = ([req], result) := by
  cases allowed <;> simp [Client.send, h]

theorem send_follow (net : Network) (ireq req next : Request) (allowed : Nat) (loc : String)
    (h : Client.step net ireq req = .follow next loc) :
    (Client.send net ireq (allowed + 1) req).1 = req :: (Client.send net ireq allowed next).1 := by
  simp [Client.send, h]

theorem redirect_PATCH (statusCode : Int) :
    redirectBehavior "PATCH" statusCode =
      if statusCode = 301 ∨ statusCode = 302 ∨ statusCode = 303 then some ("GET", false)
      else if statusCode = 307 ∨ statusCode = 308 then some ("PATCH", true)
      else none := by
  have h1 : ("PATCH" : String) ≠ "GET" := by decide
  have h2 : ("PATCH" : String) ≠ "HEAD" := by decide
  simp [redirectBehavior, h1, h2]

/-! ## The loop, one iteration at a time -/

theorem loop_exit (rt : Nat → Runtime) (apiKey ownName pdnsServer interfaceName zoneName : String)
    (ttl : Int) (fuel i : Nat) (events : List Event)
    (h : main.iteration (rt i) apiKey ownName pdnsServer interfaceName zoneName ttl = (events, .exit)) :
    main.loop rt apiKey ownName pdnsServer interfaceName zoneName ttl (fuel + 1) i =
      (events, .exited) := by
  simp [main.loop, h]

theorem loop_next (rt : Nat → Runtime) (apiKey ownName pdnsServer interfaceName zoneName : String)
    (ttl : Int) (fuel i : Nat) (events : List Event)
    (h : main.iteration (rt i) apiKey ownName pdnsServer interfaceName zoneName ttl = (events, .next)) :
    main.loop rt apiKey ownName pdnsServer interfaceName zoneName ttl (fuel + 1) i =
      (events ++ (main.loop rt apiKey ownName pdnsServer interfaceName zoneName ttl fuel (i + 1)).1,
        (main.loop rt apiKey ownName pdnsServer interfaceName zoneName ttl fuel (i + 1)).2) := by
  simp [main.loop, h]

theorem iteration_resolve_error (rt : Runtime)
    (apiKey ownName pdnsServer interfaceName zoneName : String) (ttl : Int) (err : String)
    (h1 : getLocalIPAddress rt.InterfaceByName interfaceName = .error err) :
    main.iteration rt apiKey ownName pdnsServer interfaceName zoneName ttl =
      ([.resolve interfaceName,
        .stdout ("Error getting local IP address: " ++ err ++ "\n")], .exit) := by
  simp only [main.iteration, h1]

theorem iteration_marshal_error (rt : Runtime)
    (apiKey ownName pdnsServer interfaceName zoneName : String) (ttl : Int)
    (localIP err : String)
    (h1 : getLocalIPAddress rt.InterfaceByName interfaceName = .ok localIP)
    (h2 : rt.Marshal (main.update localIP ownName zoneName ttl) = .error err) :
    main.iteration rt apiKey ownName pdnsServer interfaceName zoneName ttl =
      ([.resolve interfaceName, .stdout ("Error encoding JSON: " ++ err ++ "\n")], .exit) := by
  simp only [main.iteration, h1, h2]

theorem iteration_request_error (rt : Runtime)
    (apiKey ownName pdnsServer interfaceName zoneName : String) (ttl : Int)
    (localIP body err : String)
    (h1 : getLocalIPAddress rt.InterfaceByName interfaceName = .ok localIP)
    (h2 : rt.Marshal (main.update localIP ownName zoneName ttl) = .ok body)
    (h3 : main.request rt.urlParse apiKey pdnsServer zoneName body = .error err) :
    main.iteration rt apiKey ownName pdnsServer interfaceName zoneName ttl =
      ([.resolve interfaceName, .stdout ("Error creating request: " ++ err ++ "\n")], .exit) := by
  simp only [main.iteration, h1, h2, h3]

theorem iteration_transport_error (rt : Runtime)
    (apiKey ownName pdnsServer interfaceName zoneName : String) (ttl : Int)
    (localIP body err : String) (req : Request)
    (h1 : getLocalIPAddress rt.InterfaceByName interfaceName = .ok localIP)
    (h2 : rt.Marshal (main.update localIP ownName zoneName ttl) = .ok body)
    (h3 : main.request rt.urlParse apiKey pdnsServer zoneName body = .ok req)
    (h4 : rt.Do req = .error err) :
    main.iteration rt apiKey ownName pdnsServer interfaceName zoneName ttl =
      ([.resolve interfaceName, .send req,
        .stdout ("Error sending request: " ++ err ++ "\n")], .exit) := by
  simp only [main.iteration, h1, h2, h3, h4]

/-- The events of an iteration that receives a response with status `code`. -/
theorem iteration_response (rt : Runtime) (apiKey ownName pdnsServer interfaceName zoneName : String)
    (ttl : Int) (localIP body : String) (req : Request) (resp : Response)
    (h1 : getLocalIPAddress rt.InterfaceByName interfaceName = .ok localIP)
    (h2 : rt.Marshal (main.update localIP ownName zoneName ttl) = .ok body)
    (h3 : main.request rt.urlParse apiKey pdnsServer zoneName body = .ok req)
    (h4 : rt.Do req = .ok resp) :
    main.iteration rt apiKey ownName pdnsServer interfaceName zoneName ttl =
      ([.resolve interfaceName, .send req,
        (if resp.StatusCode ≠ StatusNoContent then
          .stdout ("Request failed: status code " ++ toString resp.StatusCode ++ "\n")
        else .stdout "Resource record updated successfully!\n"),
        .sleep (30 * Minute),
        .stdout "Successfully updated DNS record!\n",
        .stdout ("IP:  " ++ localIP ++ "\n"),
        .stdout "Sleeping for 30 minutes...\n"], .next) := by
  simp only [main.iteration, h1, h2, h3, h4]

theorem iteration_head (rt : Runtime) (apiKey ownName pdnsServer interfaceName zoneName : String)
    (ttl : Int) :
    ∃ rest, (main.iteration rt apiKey ownName pdnsServer interfaceName zoneName ttl).1 =
      .resolve interfaceName :: rest := by
  unfold main.iteration
  split
  · exact ⟨_, rfl⟩
  · split
    · exact ⟨_, rfl⟩
    · split
      · exact ⟨_, rfl⟩
      · split <;> exact ⟨_, rfl⟩

theorem loop_head (rt : Nat → Runtime) (apiKey ownName pdnsServer interfaceName zoneName : String)
    (ttl : Int) (fuel i : Nat) :
    ∃ rest, (main.loop rt apiKey ownName pdnsServer interfaceName zoneName ttl (fuel + 1) i).1 =
      .resolve interfaceName :: rest := by
  obtain ⟨rest, hrest⟩ :=
    iteration_head (rt i) apiKey ownName pdnsServer interfaceName zoneName ttl
  rcases hit : main.iteration (rt i) apiKey ownName pdnsServer interfaceName zoneName ttl with
    ⟨events, out⟩
  rw [hit] at hrest
  simp only at hrest
  cases out with
  | exit => rw [loop_exit rt _ _ _ _ _ _ fuel i events hit]; exact ⟨rest, hrest⟩
  | next =>
    rw [loop_next rt _ _ _ _ _ _ fuel i events hit, hrest]
    exact ⟨_, rfl⟩

theorem requestsOf_append (a b : List Event) :
    requestsOf (a ++ b) = requestsOf a ++ requestsOf b := by
  induction a with
  | nil => rfl
  | cons e rest ih => cases e <;> simp [requestsOf, ih]

theorem iteration_requests (rt : Runtime)
    (apiKey ownName pdnsServer interfaceName zoneName : String) (ttl : Int) (req : Request)
    (h : req ∈ requestsOf (main.iteration rt apiKey ownName pdnsServer interfaceName zoneName ttl).1) :
    ∃ localIP, rt.Marshal (main.update localIP ownName zoneName ttl) = .ok req.Body := by
  rcases h1 : getLocalIPAddress rt.InterfaceByName interfaceName with err | localIP
  · rw [iteration_resolve_error rt _ _ _ _ _ _ err h1] at h
    simp [requestsOf] at h
  · rcases h2 : rt.Marshal (main.update localIP ownName zoneName ttl) with err | body
    · rw [iteration_marshal_error rt _ _ _ _ _ _ localIP err h1 h2] at h
      simp [requestsOf] at h
    · rcases h3 : main.request rt.urlParse apiKey pdnsServer zoneName body with err | r
      · rw [iteration_request_error rt _ _ _ _ _ _ localIP body err h1 h2 h3] at h
        simp [requestsOf] at h
      · have hb := request_body _ _ _ _ _ _ h3
        rcases h4 : rt.Do r with err | resp
        · rw [iteration_transport_error rt _ _ _ _ _ _ localIP body err r h1 h2 h3 h4] at h
          simp only [requestsOf, List.mem_singleton] at h
          exact ⟨localIP, by rw [h, hb]; exact h2⟩
        · rw [iteration_response rt _ _ _ _ _ _ localIP body r resp h1 h2 h3 h4] at h
          have : req = r := by
            by_cases hc : resp.StatusCode = StatusNoContent <;>
              simpa [hc, requestsOf] using h
          exact ⟨localIP, by rw [this, hb]; exact h2⟩

theorem loop_requests (rt : Nat → Runtime)
    (apiKey ownName pdnsServer interfaceName zoneName : String) (ttl : Int) (fuel : Nat) :
    ∀ i req,
      req ∈ requestsOf (main.loop rt apiKey ownName pdnsServer interfaceName zoneName ttl fuel i).1 →
      ∃ j localIP, (rt j).Marshal (main.update localIP ownName zoneName ttl) = .ok req.Body := by
  induction fuel with
  | zero =>
    intro i req h
    simp [main.loop, requestsOf] at h
  | succ fuel ih =>
    intro i req h
    rcases hit : main.iteration (rt i) apiKey ownName pdnsServer interfaceName zoneName ttl with
      ⟨events, out⟩
    have hreq := iteration_requests (rt i) apiKey ownName pdnsServer interfaceName zoneName ttl req
    rw [hit] at hreq
    cases out with
    | exit =>
      rw [loop_exit rt _ _ _ _ _ _ fuel i events hit] at h
      obtain ⟨ip, hip⟩ := hreq h
      exact ⟨i, ip, hip⟩
    | next =>
      rw [loop_next rt _ _ _ _ _ _ fuel i events hit] at h
      simp only [requestsOf_append, List.mem_append] at h
      rcases h with h | h
      · obtain ⟨ip, hip⟩ := hreq h
        exact ⟨i, ip, hip⟩
      · exact ih (i + 1) req h

/-! ## The resolver and the check of the configuration -/

theorem String_of_To4 (ip p4 : IP) (h : IP.To4 ip = some p4) : IP.String ip = dotted p4 := by
  have hlen : ip.length = 4 ∨ ip.length = 16 := by
    unfold IP.To4 at h
    split at h
    · left; assumption
    · split at h
      · right; exact ‹_ ∧ _›.1
      · exact absurd h (by simp)
  have h0 : ip.length ≠ 0 := by omega
  have h1 : ¬ (ip.length ≠ 4 ∧ ip.length ≠ 16) := by omega
  simp only [IP.String, h0, if_false, h1, h]

theorem scan_skips (pre : List Addr) (a : Addr) (post : List Addr) (p4 : IP)
    (hpre : ∀ b ∈ pre, b.ipv4? = none) (ha : a.ipv4? = some p4) :
    getLocalIPAddress.scan (pre ++ a :: post) = some (dotted p4) := by
  induction pre with
  | nil =>
    cases a with
    | IPNet ip mask =>
      have h4 : IP.To4 ip = some p4 := ha
      simp [getLocalIPAddress.scan, h4, String_of_To4 ip p4 h4]
    | other text => exact absurd ha (by simp [Addr.ipv4?])
  | cons b rest ih =>
    have hb := hpre b (List.mem_cons_self _ _)
    have hrest := ih (fun c hc => hpre c (List.mem_cons_of_mem _ hc))
    cases b with
    | IPNet ip mask =>
      have h4 : IP.To4 ip = none := hb
      simpa [getLocalIPAddress.scan, h4] using hrest
    | other text => simpa [getLocalIPAddress.scan] using hrest

theorem scan_none_iff (L : List Addr) :
    getLocalIPAddress.scan L = none ↔ ∀ a ∈ L, a.ipv4? = none := by
  induction L with
  | nil => simp [getLocalIPAddress.scan]
  | cons b rest ih =>
    cases b with
    | IPNet ip mask =>
      cases h4 : IP.To4 ip with
      | none => simp [getLocalIPAddress.scan, h4, ih, Addr.ipv4?]
      | some p4 => simp [getLocalIPAddress.scan, h4, Addr.ipv4?]
    | other text => simp [getLocalIPAddress.scan, ih, Addr.ipv4?]

theorem missing_iff (env : Env) (key : String) : missing env key ↔ Getenv env key = "" := by
  unfold missing Getenv
  cases env key with
  | none => simp
  | some v => simp

/-! ## The properties of the specification, C1 to C10 -/

/-- C1. In every iteration of the update loop that receives an HTTP response
with status code `c`: the iteration does not return; the success line of the
status check, `Resource record updated successfully!`, is printed if and only
if `c = 204`; for every other `c` the line `Request failed: status code c` is
printed, and no failure line with another code; in both cases the 30-minute
sleep follows and the loop goes on with the resolver call of the next
iteration. -/
theorem status_check_reports (rt : Nat → Runtime)
    (apiKey ownName pdnsServer interfaceName zoneName : String) (ttl : Int) (fuel i : Nat)
    (localIP body : String) (req : Request) (resp : Response)
    (h1 : getLocalIPAddress (rt i).InterfaceByName interfaceName = .ok localIP)
    (h2 : (rt i).Marshal (main.update localIP ownName zoneName ttl) = .ok body)
    (h3 : main.request (rt i).urlParse apiKey pdnsServer zoneName body = .ok req)
    (h4 : (rt i).Do req = .ok resp) :
    ∃ events,
      main.iteration (rt i) apiKey ownName pdnsServer interfaceName zoneName ttl = (events, .next) ∧
      (.stdout "Resource record updated successfully!\n" ∈ events ↔ resp.StatusCode = 204) ∧
      (resp.StatusCode ≠ 204 →
        .stdout ("Request failed: status code " ++ toString resp.StatusCode ++ "\n") ∈ events) ∧
      (∀ c : Int, .stdout ("Request failed: status code " ++ toString c ++ "\n") ∈ events →
        c = resp.StatusCode ∧ c ≠ 204) ∧
      .sleep (30 * Minute) ∈ events ∧
      ∃ later status,
        main.loop rt apiKey ownName pdnsServer interfaceName zoneName ttl (fuel + 2) i =
          (events ++ .resolve interfaceName :: later, status) := by
  have hit := iteration_response (rt i) apiKey ownName pdnsServer interfaceName zoneName ttl
    localIP body req resp h1 h2 h3 h4
  refine ⟨_, hit, ?_, ?_, ?_, ?_, ?_⟩
  · have hf := failLine_ne_fixed (toString resp.StatusCode)
    have hi := ipLine_ne localIP ""
    by_cases hc : resp.StatusCode = 204
    · simp [hc, StatusNoContent]
    · simp only [StatusNoContent, ne_eq, hc, not_false_eq_true, if_true, List.mem_cons,
        Event.stdout.injEq, List.mem_singleton, iff_false, not_or, List.not_mem_nil]
      refine ⟨by simp, by simp, fun h => hf.1 h.symm, by simp, by decide, fun h => hi.1 h.symm,
        by decide, by simp⟩
  · intro hc
    simp [hc, StatusNoContent]
  · intro c hmem
    have hf := failLine_ne_fixed (toString c)
    have hi := ipLine_ne localIP (toString c)
    by_cases hc : resp.StatusCode = 204
    · exfalso
      simp only [StatusNoContent, hc, ne_eq, not_true_eq_false, if_false, List.mem_cons,
        Event.stdout.injEq, List.mem_singleton, List.not_mem_nil] at hmem
      rcases hmem with h | h | h | h | h | h | h | h
      · exact absurd h (by simp)
      · exact absurd h (by simp)
      · exact hf.1 h
      · exact absurd h (by simp)
      · exact hf.2.1 h
      · exact hi.2 h.symm
      · exact hf.2.2 h
      · exact h
    · simp only [StatusNoContent, hc, ne_eq, not_false_eq_true, if_true, List.mem_cons,
        Event.stdout.injEq, List.mem_singleton, List.not_mem_nil] at hmem
      rcases hmem with h | h | h | h | h | h | h | h
      · exact absurd h (by simp)
      · exact absurd h (by simp)
      · have := failLine_injective c resp.StatusCode h
        exact ⟨this, by rw [this]; exact hc⟩
      · exact absurd h (by simp)
      · exact absurd (hf.2.1 h) id
      · exact absurd (hi.2 h.symm) id
      · exact absurd (hf.2.2 h) id
      · exact absurd h id
  · simp
  · obtain ⟨rest, hrest⟩ :=
      loop_head rt apiKey ownName pdnsServer interfaceName zoneName ttl fuel (i + 1)
    rw [loop_next rt _ _ _ _ _ _ (fuel + 1) i _ hit, hrest]
    exact ⟨_, _, rfl⟩

/-- C1 at a concrete input: a response with status 200 in the first iteration. -/
theorem status_check_reports_witness :
    ∃ events,
      main.iteration (sampleRuntime fun _ => .ok ⟨200⟩)
        "secret" "host1" "ns.example:8081" "eth0" "example.com" 300 = (events, .next) ∧
      (.stdout "Resource record updated successfully!\n" ∈ events ↔ (200 : Int) = 204) ∧
      ((200 : Int) ≠ 204 →
        .stdout ("Request failed: status code " ++ toString (200 : Int) ++ "\n") ∈ events) ∧
      (∀ c : Int, .stdout ("Request failed: status code " ++ toString c ++ "\n") ∈ events →
        c = 200 ∧ c ≠ 204) ∧
      .sleep (30 * Minute) ∈ events ∧
      ∃ later status,
        main.loop (fun _ => sampleRuntime fun _ => .ok ⟨200⟩)
            "secret" "host1" "ns.example:8081" "eth0" "example.com" 300 2 0 =
          (events ++ .resolve "eth0" :: later, status) :=
  status_check_reports (fun _ => sampleRuntime fun _ => .ok ⟨200⟩)
    "secret" "host1" "ns.example:8081" "eth0" "example.com" 300 0 0 "203.0.113.5" scenarioBody
    (sampleRequest "ns.example:8081" "example.com" scenarioBody) ⟨200⟩
    host_resolves sample_marshal (sample_request scenarioBody) rfl

/-- C2, as stated, fails: a run in which address resolution succeeds and the
HTTP call fails in transport. The error is reported, `main` returns in that
iteration, nothing sleeps and the two iterations still allowed do not run. -/
theorem transport_failure_stops_the_loop :
    getLocalIPAddress host "eth0" = .ok "203.0.113.5" ∧
    main (sampleEnv "ns.example:8081" "example.com" none)
        (fun _ => sampleRuntime fun _ =>
          .error "Patch \"http://ns.example:8081/api/v1/servers/localhost/zones/example.com\": dial tcp 192.0.2.53:8081: connect: connection refused") 3 =
      ([.resolve "eth0", .send (sampleRequest "ns.example:8081" "example.com" scenarioBody),
        .stdout "Error sending request: Patch \"http://ns.example:8081/api/v1/servers/localhost/zones/example.com\": dial tcp 192.0.2.53:8081: connect: connection refused\n"],
       .exited) := by
  exact ⟨by rfl, by rfl⟩

/-- C2, amended. In an iteration in which address resolution succeeds: a
response with a status other than 204 is reported, the 30-minute sleep follows
and the loop goes on with the next iteration; a JSON serialization failure, a
request construction failure and a transport failure of the HTTP call are
reported and `main` returns in that iteration, without sleeping. -/
theorem publish_failures (rt : Nat → Runtime)
    (apiKey ownName pdnsServer interfaceName zoneName : String) (ttl : Int) (fuel i : Nat)
    (localIP : String)
    (h1 : getLocalIPAddress (rt i).InterfaceByName interfaceName = .ok localIP) :
    (∀ body req resp,
      (rt i).Marshal (main.update localIP ownName zoneName ttl) = .ok body →
      main.request (rt i).urlParse apiKey pdnsServer zoneName body = .ok req →
      (rt i).Do req = .ok resp → resp.StatusCode ≠ 204 →
      ∃ later status,
        main.loop rt apiKey ownName pdnsServer interfaceName zoneName ttl (fuel + 2) i =
          ([.resolve interfaceName, .send req,
            .stdout ("Request failed: status code " ++ toString resp.StatusCode ++ "\n"),
            .sleep (30 * Minute),
            .stdout "Successfully updated DNS record!\n",
            .stdout ("IP:  " ++ localIP ++ "\n"),
            .stdout "Sleeping for 30 minutes...\n"] ++ .resolve interfaceName :: later, status)) ∧
    (∀ err,
      (rt i).Marshal (main.update localIP ownName zoneName ttl) = .error err →
      main.loop rt apiKey ownName pdnsServer interfaceName zoneName ttl (fuel + 1) i =
        ([.resolve interfaceName, .stdout ("Error encoding JSON: " ++ err ++ "\n")], .exited)) ∧
    (∀ body err,
      (rt i).Marshal (main.update localIP ownName zoneName ttl) = .ok body →
      main.request (rt i).urlParse apiKey pdnsServer zoneName body = .error err →
      main.loop rt apiKey ownName pdnsServer interfaceName zoneName ttl (fuel + 1) i =
        ([.resolve interfaceName, .stdout ("Error creating request: " ++ err ++ "\n")],
          .exited)) ∧
    (∀ body req err,
      (rt i).Marshal (main.update localIP ownName zoneName ttl) = .ok body →
      main.request (rt i).urlParse apiKey pdnsServer zoneName body = .ok req →
      (rt i).Do req = .error err →
      main.loop rt apiKey ownName pdnsServer interfaceName zoneName ttl (fuel + 1) i =
        ([.resolve interfaceName, .send req,
          .stdout ("Error sending request: " ++ err ++ "\n")], .exited)) := by
  refine ⟨?_, ?_, ?_, ?_⟩
  · intro body req resp h2 h3 h4 hc
    have hit := iteration_response (rt i) apiKey ownName pdnsServer interfaceName zoneName ttl
      localIP body req resp h1 h2 h3 h4
    have hc1 : resp.StatusCode ≠ StatusNoContent := hc
    simp only [hc1, ne_eq, not_false_eq_true, if_true] at hit
    obtain ⟨rest, hrest⟩ :=
      loop_head rt apiKey ownName pdnsServer interfaceName zoneName ttl fuel (i + 1)
    rw [loop_next rt _ _ _ _ _ _ (fuel + 1) i _ hit, hrest]
    exact ⟨_, _, rfl⟩
  · intro err h2
    exact loop_exit rt _ _ _ _ _ _ fuel i _
      (iteration_marshal_error (rt i) _ _ _ _ _ _ localIP err h1 h2)
  · intro body err h2 h3
    exact loop_exit rt _ _ _ _ _ _ fuel i _
      (iteration_request_error (rt i) _ _ _ _ _ _ localIP body err h1 h2 h3)
  · intro body req err h2 h3 h4
    exact loop_exit rt _ _ _ _ _ _ fuel i _
      (iteration_transport_error (rt i) _ _ _ _ _ _ localIP body err req h1 h2 h3 h4)

/-- C2, amended, at a concrete input: a response with status 500 in the first
iteration, after which the second iteration starts. -/
theorem publish_failures_witness :
    ∃ later status,
      main.loop (fun _ => sampleRuntime fun _ => .ok ⟨500⟩)
          "secret" "host1" "ns.example:8081" "eth0" "example.com" 300 2 0 =
        ([.resolve "eth0", .send (sampleRequest "ns.example:8081" "example.com" scenarioBody),
          .stdout ("Request failed: status code " ++ toString (500 : Int) ++ "\n"),
          .sleep (30 * Minute),
          .stdout "Successfully updated DNS record!\n",
          .stdout ("IP:  " ++ "203.0.113.5" ++ "\n"),
          .stdout "Sleeping for 30 minutes...\n"] ++ .resolve "eth0" :: later, status) :=
  (publish_failures (fun _ => sampleRuntime fun _ => .ok ⟨500⟩)
    "secret" "host1" "ns.example:8081" "eth0" "example.com" 300 0 0 "203.0.113.5"
    host_resolves).1 scenarioBody (sampleRequest "ns.example:8081" "example.com" scenarioBody)
    ⟨500⟩ sample_marshal (sample_request scenarioBody) rfl (by decide)

/-- C3, as stated, fails: a run in which address resolution succeeds in every
iteration. The first iteration receives status 204, the second a transport
error, after which `main` returns with three iterations still allowed: a
resolver failure is not the only outcome that ends the loop. -/
theorem loop_ends_without_resolver_failure :
    getLocalIPAddress host "eth0" = .ok "203.0.113.5" ∧
    main (sampleEnv "ns.example:8081" "example.com" none)
        (fun i => sampleRuntime fun _ =>
          if i = 0 then .ok ⟨204⟩ else .error "Patch \"http://ns.example:8081/api/v1/servers/localhost/zones/example.com\": EOF") 5 =
      ([.resolve "eth0", .send (sampleRequest "ns.example:8081" "example.com" scenarioBody),
        .stdout "Resource record updated successfully!\n",
        .sleep 1800000000000,
        .stdout "Successfully updated DNS record!\n",
        .stdout "IP:  203.0.113.5\n",
        .stdout "Sleeping for 30 minutes...\n",
        .resolve "eth0", .send (sampleRequest "ns.example:8081" "example.com" scenarioBody),
        .stdout "Error sending request: Patch \"http://ns.example:8081/api/v1/servers/localhost/zones/example.com\": EOF\n"],
       .exited) := by
  exact ⟨by rfl, by rfl⟩

/-- C3, amended. In an iteration in which `getLocalIPAddress` returns an error,
`main` prints the error and returns in that iteration: no HTTP request is
issued, nothing sleeps, no later iteration runs. The outcomes that end the loop
are exactly a resolver failure, a serialization failure, a request construction
failure and a transport failure of the HTTP call. -/
theorem resolver_failure_exits (rt : Nat → Runtime)
    (apiKey ownName pdnsServer interfaceName zoneName : String) (ttl : Int) (fuel i : Nat) :
    (∀ err, getLocalIPAddress (rt i).InterfaceByName interfaceName = .error err →
      main.loop rt apiKey ownName pdnsServer interfaceName zoneName ttl (fuel + 1) i =
        ([.resolve interfaceName,
          .stdout ("Error getting local IP address: " ++ err ++ "\n")], .exited)) ∧
    ((main.iteration (rt i) apiKey ownName pdnsServer interfaceName zoneName ttl).2 = .exit ↔
      (∃ err, getLocalIPAddress (rt i).InterfaceByName interfaceName = .error err) ∨
      (∃ localIP err, getLocalIPAddress (rt i).InterfaceByName interfaceName = .ok localIP ∧
        (rt i).Marshal (main.update localIP ownName zoneName ttl) = .error err) ∨
      (∃ localIP body err, getLocalIPAddress (rt i).InterfaceByName interfaceName = .ok localIP ∧
        (rt i).Marshal (main.update localIP ownName zoneName ttl) = .ok body ∧
        main.request (rt i).urlParse apiKey pdnsServer zoneName body = .error err) ∨
      (∃ localIP body req err,
        getLocalIPAddress (rt i).InterfaceByName interfaceName = .ok localIP ∧
        (rt i).Marshal (main.update localIP ownName zoneName ttl) = .ok body ∧
        main.request (rt i).urlParse apiKey pdnsServer zoneName body = .ok req ∧
        (rt i).Do req = .error err)) := by
  constructor
  · intro err h1
    exact loop_exit rt _ _ _ _ _ _ fuel i _
      (iteration_resolve_error (rt i) _ _ _ _ _ _ err h1)
  · rcases h1 : getLocalIPAddress (rt i).InterfaceByName interfaceName with err | localIP
    · rw [iteration_resolve_error (rt i) _ _ _ _ _ _ err h1]
      simp
    · rcases h2 : (rt i).Marshal (main.update localIP ownName zoneName ttl) with err | body
      · rw [iteration_marshal_error (rt i) _ _ _ _ _ _ localIP err h1 h2]
        simp [h2]
      · rcases h3 : main.request (rt i).urlParse apiKey pdnsServer zoneName body with err | req
        · rw [iteration_request_error (rt i) _ _ _ _ _ _ localIP body err h1 h2 h3]
          simp [h2, h3]
        · rcases h4 : (rt i).Do req with err | resp
          · rw [iteration_transport_error (rt i) _ _ _ _ _ _ localIP body err req h1 h2 h3 h4]
            simp [h2, h3, h4]
          · rw [iteration_response (rt i) _ _ _ _ _ _ localIP body req resp h1 h2 h3 h4]
            simp [h2, h3, h4]

/-- C3, amended, at a concrete input: the interface `wlan0` does not exist on the host. -/
theorem resolver_failure_exits_witness :
    main.loop (fun _ => sampleRuntime fun _ => .ok ⟨204⟩)
        "secret" "host1" "ns.example:8081" "wlan0" "example.com" 300 3 0 =
      ([.resolve "wlan0",
        .stdout ("Error getting local IP address: " ++
          "failed to get interface: route ip+net: no such network interface" ++ "\n")],
        .exited) :=
  (resolver_failure_exits (fun _ => sampleRuntime fun _ => .ok ⟨204⟩)
    "secret" "host1" "ns.example:8081" "wlan0" "example.com" 300 2 0).1
    "failed to get interface: route ip+net: no such network interface" (by rfl)

/-- C4, as stated, fails: with address 203.0.113.5, owner `host1`, zone
`example.com.` and `PDNS_TTL` unset, the record name that `main` builds is
`host1.example.com..`, with two trailing dots; neither the document nor its
JSON text is that of the scenario. -/
theorem scenario_name_has_two_dots :
    main.ttl (Getenv (sampleEnv "ns.example:8081" "example.com." none) "PDNS_TTL") = 300 ∧
    (main.update "203.0.113.5" "host1" "example.com." 300).RRSets.map (fun r => r.Name) =
      ["host1.example.com.."] ∧
    main.update "203.0.113.5" "host1" "example.com." 300 ≠ scenarioDocument ∧
    jsonMarshal (main.update "203.0.113.5" "host1" "example.com." 300) ≠ .ok scenarioBody ∧
    requestsOf (main (sampleEnv "ns.example:8081" "example.com." none)
        (fun _ => sampleRuntime fun _ => .ok ⟨204⟩) 1).1 =
      [sampleRequest "ns.example:8081" "example.com." twoDotBody] := by
  refine ⟨by rfl, by rfl, by decide, ?_, by rfl⟩
  intro h
  have h1 : jsonMarshal (main.update "203.0.113.5" "host1" "example.com." 300) =
      .ok twoDotBody := by rfl
  rw [h1] at h
  exact absurd (Except.ok.inj h) (by decide)

/-- C4, amended. With address 203.0.113.5, owner `host1` and `PDNS_TTL` unset:
for the zone `example.com.` the PATCH body of `main` is the JSON text of the
scenario except that the name is `host1.example.com..` in both places (the
name is the owner, a dot, the zone as given and a dot); for the zone
`example.com`, without the trailing dot, the body is the JSON text of the
scenario, byte for byte, and the document is that of the scenario. -/
theorem scenario_body :
    main.ttl (Getenv (sampleEnv "ns.example:8081" "example.com." none) "PDNS_TTL") = 300 ∧
    requestsOf (main (sampleEnv "ns.example:8081" "example.com." none)
        (fun _ => sampleRuntime fun _ => .ok ⟨204⟩) 1).1 =
      [sampleRequest "ns.example:8081" "example.com." twoDotBody] ∧
    requestsOf (main (sampleEnv "ns.example:8081" "example.com" none)
        (fun _ => sampleRuntime fun _ => .ok ⟨204⟩) 1).1 =
      [sampleRequest "ns.example:8081" "example.com" scenarioBody] ∧
    main.update "203.0.113.5" "host1" "example.com" 300 = scenarioDocument ∧
    jsonMarshal scenarioDocument = .ok scenarioBody := by
  exact ⟨by rfl, by rfl, by rfl, by rfl, by rfl⟩

/-- C5. For every address, owner name, zone and TTL (in particular for
non-empty owner name and zone) the update document built in an iteration is the
reference value: one record set with change type `REPLACE`, type `A`, the TTL
and the name `owner.zone.`, holding one record with the address as content, the
same name, the same TTL, type `A` and `disabled` false. -/
theorem update_is_reference (ip ownerName zone : String) (ttl : Int)
    (_hOwner : ownerName ≠ "") (_hZone : zone ≠ "") :
    main.update ip ownerName zone ttl =
      { RRSets :=
          [{ Name := ownerName ++ "." ++ zone ++ "."
             Type_ := "A"
             TTL := ttl
             ChangeType := "REPLACE"
             Records :=
               [{ Content := ip
                  Name := ownerName ++ "." ++ zone ++ "."
                  TTL := ttl
                  Type_ := "A"
                  Disabled := false }] }] } ∧
    (main.update ip ownerName zone ttl).RRSets.length = 1 ∧
    ∀ rrset ∈ (main.update ip ownerName zone ttl).RRSets,
      rrset.Records.length = 1 ∧
      ∀ record ∈ rrset.Records,
        rrset.Name = record.Name ∧ rrset.Type_ = record.Type_ ∧ rrset.TTL = record.TTL := by
  refine ⟨rfl, rfl, ?_⟩
  intro rrset hr
  simp only [main.update, List.mem_singleton] at hr
  subst hr
  refine ⟨rfl, ?_⟩
  intro record hrec
  simp only [List.mem_singleton] at hrec
  subst hrec
  exact ⟨rfl, rfl, rfl⟩

/-- C5 at a concrete input. -/
theorem update_is_reference_witness :
    main.update "203.0.113.5" "host1" "example.com" 300 = scenarioDocument :=
  (update_is_reference "203.0.113.5" "host1" "example.com" 300 (by decide) (by decide)).1

/-- C6, as stated, fails, in four runs in which address resolution and
serialization succeed. With a tab character in `PDNS_SERVER`,
`http.NewRequest` refuses the URL, `main` reports it and returns: no HTTP
request goes out. With a server that answers the zone `example.com` with
status 307 and a location, the client sends the PATCH twice, with the same
body and API key: two HTTP requests go out. With the zone `a b`, the URL of
the request is the parsed one, written out with `a%20b`, and with the server
`ns.example:` it has lost the empty port: in both runs it is not the text
built from `PDNS_SERVER` and `PDNS_ZONE`. -/
theorem outbound_requests_differ :
    getLocalIPAddress host "eth0" = .ok "203.0.113.5" ∧
    jsonMarshal (main.update "203.0.113.5" "host1" "example.com" 300) = .ok scenarioBody ∧
    main (sampleEnv "ns.example\t:8081" "example.com" none)
        (fun _ => clientRuntime host jsonMarshal sampleParse plainNetwork) 3 =
      ([.resolve "eth0",
        .stdout "Error creating request: parse \"http://ns.example\\t:8081/api/v1/servers/localhost/zones/example.com\": net/url: invalid control character in URL\n"],
       .exited) ∧
    outbound plainNetwork (main (sampleEnv "ns.example\t:8081" "example.com" none)
        (fun _ => clientRuntime host jsonMarshal sampleParse plainNetwork) 3).1 = [] ∧
    outbound redirectingNetwork (main (sampleEnv "ns.example:8081" "example.com" none)
        (fun _ => clientRuntime host jsonMarshal sampleParse redirectingNetwork) 1).1 =
      [sampleRequest "ns.example:8081" "example.com" scenarioBody,
       { Method := "PATCH"
         URL :=
           { Scheme := "http"
             Host := "ns.example:8081"
             Path := "/api/v1/servers/localhost/zones/example.com."
             RawPath := ""
             RawQuery := "" }
         Header :=
           [("X-Api-Key", ["secret"]), ("Content-Type", ["application/json"]),
            ("Referer", ["http://ns.example:8081/api/v1/servers/localhost/zones/example.com"])]
         Body := scenarioBody }] ∧
    (requestsOf (main (sampleEnv "ns.example:8081" "a b" none)
        (fun _ => clientRuntime host jsonMarshal sampleParse plainNetwork) 1).1).map
        (fun req => URL.String req.URL) =
      ["http://ns.example:8081/api/v1/servers/localhost/zones/a%20b"] ∧
    "http://ns.example:8081/api/v1/servers/localhost/zones/a%20b" ≠
      "http://" ++ "ns.example:8081" ++ "/api/v1/servers/localhost/zones/" ++ "a b" ∧
    (requestsOf (main (sampleEnv "ns.example:" "example.com" none)
        (fun _ => clientRuntime host jsonMarshal sampleParse plainNetwork) 1).1).map
        (fun req => URL.String req.URL) =
      ["http://ns.example/api/v1/servers/localhost/zones/example.com"] ∧
    "http://ns.example/api/v1/servers/localhost/zones/example.com" ≠
      "http://" ++ "ns.example:" ++ "/api/v1/servers/localhost/zones/" ++ "example.com" := by
  exact ⟨by rfl, by rfl, by rfl, by rfl, by rfl, by rfl, by decide, by rfl, by decide⟩

/-- C6, amended. In an iteration in which address resolution, serialization and
request construction (the parsing of the URL) succeed, `main` hands exactly one
request to the HTTP client and does not retry. The request has method `PATCH`,
as URL what `url.Parse` makes of the text
`http://<PDNS_SERVER>/api/v1/servers/localhost/zones/<PDNS_ZONE>`, an empty
port removed, header `X-API-Key` equal to `PDNS_API_KEY`, header `Content-Type`
equal to `application/json`, and as body the serialized update document of the
iteration. It is the first HTTP request that goes out in the iteration; at most
nine more follow; none follows unless the first answer is a redirect (status
301, 302, 303, 307 or 308) with a `Location`, and one follows when that
`Location` resolves to a URL. -/
theorem one_request_per_iteration (InterfaceByName : String → Except String Interface)
    (Marshal : DNSUpdate → Except String String) (urlParse : String → Except String URL)
    (net : Network) (apiKey ownName pdnsServer interfaceName zoneName : String) (ttl : Int)
    (localIP body : String) (u : URL)
    (h1 : getLocalIPAddress InterfaceByName interfaceName = .ok localIP)
    (h2 : Marshal (main.update localIP ownName zoneName ttl) = .ok body)
    (h3 : urlParse ("http://" ++ pdnsServer ++ "/api/v1/servers/localhost/zones/" ++ zoneName) =
      .ok u) :
    ∃ req more,
      requestsOf (main.iteration (clientRuntime InterfaceByName Marshal urlParse net)
        apiKey ownName pdnsServer interfaceName zoneName ttl).1 = [req] ∧
      req.Method = "PATCH" ∧
      req.URL = { u with Host := removeEmptyPort u.Host } ∧
      Header.Get req.Header "X-API-Key" = apiKey ∧
      Header.Get req.Header "Content-Type" = "application/json" ∧
      req.Body = body ∧
      outbound net (main.iteration (clientRuntime InterfaceByName Marshal urlParse net)
        apiKey ownName pdnsServer interfaceName zoneName ttl).1 = req :: more ∧
      more.length ≤ 9 ∧
      ((∀ resp loc, net.RoundTrip req = .ok (resp, loc) →
          (resp.StatusCode ≠ 301 ∧ resp.StatusCode ≠ 302 ∧ resp.StatusCode ≠ 303 ∧
            resp.StatusCode ≠ 307 ∧ resp.StatusCode ≠ 308) ∨ loc = "") → more = []) ∧
      (∀ resp loc v, net.RoundTrip req = .ok (resp, loc) →
          (resp.StatusCode = 301 ∨ resp.StatusCode = 302 ∨ resp.StatusCode = 303 ∨
            resp.StatusCode = 307 ∨ resp.StatusCode = 308) → loc ≠ "" →
          net.Resolve req.URL loc = .ok v → more ≠ []) := by
  have hreq := request_ok urlParse apiKey pdnsServer zoneName body u h3
  have hk1 : CanonicalMIMEHeaderKey "X-API-Key" = "X-Api-Key" := by decide
  have hk2 : CanonicalMIMEHeaderKey "Content-Type" = "Content-Type" := by decide
  obtain ⟨more, hmore, hlen⟩ := send_head net
    ⟨"PATCH", { u with Host := removeEmptyPort u.Host },
      [("X-Api-Key", [apiKey]), ("Content-Type", ["application/json"])], body⟩ 9
    ⟨"PATCH", { u with Host := removeEmptyPort u.Host },
      [("X-Api-Key", [apiKey]), ("Content-Type", ["application/json"])], body⟩
  have hone : requestsOf (main.iteration (clientRuntime InterfaceByName Marshal urlParse net)
      apiKey ownName pdnsServer interfaceName zoneName ttl).1 =
      [⟨"PATCH", { u with Host := removeEmptyPort u.Host },
        [("X-Api-Key", [apiKey]), ("Content-Type", ["application/json"])], body⟩] := by
    rcases h4 : (clientRuntime InterfaceByName Marshal urlParse net).Do
        ⟨"PATCH", { u with Host := removeEmptyPort u.Host },
          [("X-Api-Key", [apiKey]), ("Content-Type", ["application/json"])], body⟩
      with err | resp
    · rw [iteration_transport_error (clientRuntime InterfaceByName Marshal urlParse net)
        _ _ _ _ _ _ localIP body err _ h1 h2 hreq h4]
      rfl
    · rw [iteration_response (clientRuntime InterfaceByName Marshal urlParse net)
        _ _ _ _ _ _ localIP body _ resp h1 h2 hreq h4]
      by_cases hc : resp.StatusCode = StatusNoContent <;> simp [hc, requestsOf]
  refine ⟨⟨"PATCH", { u with Host := removeEmptyPort u.Host },
    [("X-Api-Key", [apiKey]), ("Content-Type", ["application/json"])], body⟩, more,
    hone, rfl, rfl, ?_, ?_, rfl, ?_, hlen, ?_, ?_⟩
  · simp [Header.Get, hk1]
  · simp [Header.Get, hk2]
  · rw [outbound, hone]
    simpa [Client.Do] using hmore
  · intro hno
    have hstep : ∃ result, Client.step net
        ⟨"PATCH", { u with Host := removeEmptyPort u.Host },
          [("X-Api-Key", [apiKey]), ("Content-Type", ["application/json"])], body⟩
        ⟨"PATCH", { u with Host := removeEmptyPort u.Host },
          [("X-Api-Key", [apiKey]), ("Content-Type", ["application/json"])], body⟩ =
        .done result := by
      unfold Client.step
      rcases hrt : net.RoundTrip
          ⟨"PATCH", { u with Host := removeEmptyPort u.Host },
            [("X-Api-Key", [apiKey]), ("Content-Type", ["application/json"])], body⟩
        with err | ⟨resp, loc⟩
      · exact ⟨_, rfl⟩
      · simp only [redirect_PATCH]
        rcases hno resp loc hrt with hs | hl
        · simp [hs.1, hs.2.1, hs.2.2.1, hs.2.2.2.1, hs.2.2.2.2]
        · by_cases hr : resp.StatusCode = 301 ∨ resp.StatusCode = 302 ∨ resp.StatusCode = 303
          · simp [hr, hl]
          · by_cases hr2 : resp.StatusCode = 307 ∨ resp.StatusCode = 308
            · simp [hr, hr2, hl]
            · simp [hr, hr2]
    obtain ⟨result, hres⟩ := hstep
    rw [send_done net _ _ 9 result hres] at hmore
    simpa using hmore.symm
  · intro resp loc v hrt hs hl hv
    have hstep : ∃ next, Client.step net
        ⟨"PATCH", { u with Host := removeEmptyPort u.Host },
          [("X-Api-Key", [apiKey]), ("Content-Type", ["application/json"])], body⟩
        ⟨"PATCH", { u with Host := removeEmptyPort u.Host },
          [("X-Api-Key", [apiKey]), ("Content-Type", ["application/json"])], body⟩ =
        .follow next loc := by
      unfold Client.step
      simp only [hrt, redirect_PATCH]
      by_cases hr : resp.StatusCode = 301 ∨ resp.StatusCode = 302 ∨ resp.StatusCode = 303
      · simp [hr, hl, hv]
      · have hr2 : resp.StatusCode = 307 ∨ resp.StatusCode = 308 := by
          rcases hs with h | h | h | h | h
          · exact absurd (Or.inl h) hr
          · exact absurd (Or.inr (Or.inl h)) hr
          · exact absurd (Or.inr (Or.inr h)) hr
          · exact Or.inl h
          · exact Or.inr h
        simp [hr, hr2, hl, hv]
    obtain ⟨next, hnext⟩ := hstep
    obtain ⟨more2, hmore2, _⟩ := send_head net
      ⟨"PATCH", { u with Host := removeEmptyPort u.Host },
        [("X-Api-Key", [apiKey]), ("Content-Type", ["application/json"])], body⟩ 8 next
    rw [send_follow net _ _ next 8 loc hnext, hmore2] at hmore
    intro hnil
    rw [hnil] at hmore
    simp at hmore

/-- C6, amended, at a concrete input: the request of the sample environment,
which is the only one on a network that answers with status 204. -/
theorem one_request_per_iteration_witness :
    ∃ req more,
      requestsOf (main.iteration (clientRuntime host jsonMarshal sampleParse plainNetwork)
        "secret" "host1" "ns.example:8081" "eth0" "example.com" 300).1 = [req] ∧
      req.Method = "PATCH" ∧
      req.URL =
        { (sampleRequest "ns.example:8081" "example.com" scenarioBody).URL with
          Host := removeEmptyPort (sampleRequest "ns.example:8081" "example.com" scenarioBody).URL.Host } ∧
      Header.Get req.Header "X-API-Key" = "secret" ∧
      Header.Get req.Header "Content-Type" = "application/json" ∧
      req.Body = scenarioBody ∧
      outbound plainNetwork (main.iteration (clientRuntime host jsonMarshal sampleParse plainNetwork)
        "secret" "host1" "ns.example:8081" "eth0" "example.com" 300).1 = req :: more ∧
      more.length ≤ 9 ∧
      ((∀ resp loc, plainNetwork.RoundTrip req = .ok (resp, loc) →
          (resp.StatusCode ≠ 301 ∧ resp.StatusCode ≠ 302 ∧ resp.StatusCode ≠ 303 ∧
            resp.StatusCode ≠ 307 ∧ resp.StatusCode ≠ 308) ∨ loc = "") → more = []) ∧
      (∀ resp loc v, plainNetwork.RoundTrip req = .ok (resp, loc) →
          (resp.StatusCode = 301 ∨ resp.StatusCode = 302 ∨ resp.StatusCode = 303 ∨
            resp.StatusCode = 307 ∨ resp.StatusCode = 308) → loc ≠ "" →
          plainNetwork.Resolve req.URL loc = .ok v → more ≠ []) :=
  one_request_per_iteration host jsonMarshal sampleParse plainNetwork
    "secret" "host1" "ns.example:8081" "eth0" "example.com" 300 "203.0.113.5" scenarioBody
    (sampleRequest "ns.example:8081" "example.com" scenarioBody).URL
    host_resolves sample_marshal (by rfl)

/-- C7. For an existing interface whose address enumeration succeeds with the
list `L`: when an entry of `L` is a valid IPv4 address and no entry before it
is, `getLocalIPAddress` returns the dotted-decimal text of that entry (the
IPv6 and non-IP entries before it are skipped); when `L` holds an IPv4 entry
the call succeeds; and the call fails with the no-IPv4-address error if and
only if `L` holds no IPv4 entry. -/
theorem first_ipv4_is_returned (InterfaceByName : String → Except String Interface)
    (interfaceName : String) (iface : Interface) (L : List Addr)
    (h1 : InterfaceByName interfaceName = .ok iface) (h2 : iface.Addrs = .ok L) :
    (∀ pre a post p4, L = pre ++ a :: post → (∀ b ∈ pre, b.ipv4? = none) →
      a.ipv4? = some p4 →
      getLocalIPAddress InterfaceByName interfaceName = .ok (dotted p4)) ∧
    ((∃ a ∈ L, a.ipv4? ≠ none) →
      ∃ text, getLocalIPAddress InterfaceByName interfaceName = .ok text) ∧
    (getLocalIPAddress InterfaceByName interfaceName =
        .error ("no valid IPv4 address found for interface " ++ interfaceName) ↔
      ∀ a ∈ L, a.ipv4? = none) := by
  refine ⟨?_, ?_, ?_⟩
  · intro pre a post p4 hL hpre ha
    simp only [getLocalIPAddress, h1, h2, hL, scan_skips pre a post p4 hpre ha]
  · intro hex
    cases hs : getLocalIPAddress.scan L with
    | none =>
      obtain ⟨a, ha, hne⟩ := hex
      exact absurd ((scan_none_iff L).1 hs a ha) hne
    | some text => exact ⟨text, by simp only [getLocalIPAddress, h1, h2, hs]⟩
  · rw [← scan_none_iff]
    cases hs : getLocalIPAddress.scan L with
    | none => simp only [getLocalIPAddress, h1, h2, hs]
    | some text => simp [getLocalIPAddress, h1, h2, hs]

/-- C7 at a concrete input: the interface `eth0`, whose IPv4 address comes
after a non-IP entry and an IPv6 address. -/
theorem first_ipv4_is_returned_witness :
    getLocalIPAddress host "eth0" = .ok (dotted [203, 0, 113, 5]) :=
  (first_ipv4_is_returned host "eth0" eth0
    [.other "link",
     .IPNet [254, 128, 0, 0, 0, 0, 0, 0, 0, 0, 0, 0, 0, 0, 0, 1]
       [255, 255, 255, 255, 255, 255, 255, 255, 0, 0, 0, 0, 0, 0, 0, 0],
     .IPNet [203, 0, 113, 5] [255, 255, 255, 0]] (by rfl) (by rfl)).1
    [.other "link",
     .IPNet [254, 128, 0, 0, 0, 0, 0, 0, 0, 0, 0, 0, 0, 0, 0, 1]
       [255, 255, 255, 255, 255, 255, 255, 255, 0, 0, 0, 0, 0, 0, 0, 0]]
    (.IPNet [203, 0, 113, 5] [255, 255, 255, 0]) [] [203, 0, 113, 5] (by rfl)
    (by decide) (by rfl)

/-- C8. If at least one of `PDNS_API_KEY`, `PDNS_OWN_NAME`, `PDNS_SERVER`,
`PDNS_INTERFACE`, `PDNS_ZONE` is unset or empty, `main` prints the usage
message and returns: nothing is resolved, no request is sent, nothing sleeps,
whatever `PDNS_TTL` is. If all five are non-empty, `main` enters the loop with
the TTL computed from `PDNS_TTL` (unset or not), and its first action is the
resolver call of the first iteration. -/
theorem usage_check (env : Env) (rt : Nat → Runtime) (fuel : Nat) :
    ((missing env "PDNS_API_KEY" ∨ missing env "PDNS_OWN_NAME" ∨ missing env "PDNS_SERVER" ∨
        missing env "PDNS_INTERFACE" ∨ missing env "PDNS_ZONE") →
      main env rt fuel = ([.stdout usage], .exited)) ∧
    ((¬ missing env "PDNS_API_KEY" ∧ ¬ missing env "PDNS_OWN_NAME" ∧
        ¬ missing env "PDNS_SERVER" ∧ ¬ missing env "PDNS_INTERFACE" ∧
        ¬ missing env "PDNS_ZONE") →
      main env rt fuel =
        main.loop rt (Getenv env "PDNS_API_KEY") (Getenv env "PDNS_OWN_NAME")
          (Getenv env "PDNS_SERVER") (Getenv env "PDNS_INTERFACE") (Getenv env "PDNS_ZONE")
          (main.ttl (Getenv env "PDNS_TTL")) fuel 0 ∧
      ∃ rest, (main env rt (fuel + 1)).1 = .resolve (Getenv env "PDNS_INTERFACE") :: rest) := by
  simp only [missing_iff]
  constructor
  · intro h
    simp only [main, h, if_true]
  · intro h
    have hn : ¬ (Getenv env "PDNS_API_KEY" = "" ∨ Getenv env "PDNS_OWN_NAME" = "" ∨
        Getenv env "PDNS_SERVER" = "" ∨ Getenv env "PDNS_INTERFACE" = "" ∨
        Getenv env "PDNS_ZONE" = "") := by
      rintro (h0 | h0 | h0 | h0 | h0)
      · exact h.1 h0
      · exact h.2.1 h0
      · exact h.2.2.1 h0
      · exact h.2.2.2.1 h0
      · exact h.2.2.2.2 h0
    constructor
    · simp only [main, hn, if_false]
    · simp only [main, hn, if_false]
      exact loop_head rt _ _ _ _ _ _ fuel 0

/-- C8 at concrete inputs: `PDNS_ZONE` empty and `PDNS_TTL` set; all five
variables set and `PDNS_TTL` unset. -/
theorem usage_check_witness :
    main (sampleEnv "ns.example:8081" "" (some "60"))
      (fun _ => sampleRuntime fun _ => .ok ⟨204⟩) 3 = ([.stdout usage], .exited) ∧
    ∃ rest, (main (sampleEnv "ns.example:8081" "example.com" none)
      (fun _ => sampleRuntime fun _ => .ok ⟨204⟩) (3 + 1)).1 =
        .resolve (Getenv (sampleEnv "ns.example:8081" "example.com" none) "PDNS_INTERFACE") ::
          rest :=
  ⟨(usage_check (sampleEnv "ns.example:8081" "" (some "60"))
      (fun _ => sampleRuntime fun _ => .ok ⟨204⟩) 3).1
      (Or.inr (Or.inr (Or.inr (Or.inr (Or.inr rfl))))),
    ((usage_check (sampleEnv "ns.example:8081" "example.com" none)
      (fun _ => sampleRuntime fun _ => .ok ⟨204⟩) 3).2
      ⟨by decide, by decide, by decide, by decide, by decide⟩).2⟩

/-- C9, as stated, fails: `PDNS_TTL` is the decimal text of the integer `2^63`,
which `strconv.Atoi` refuses as out of the range of `int`; the TTL is 300 and
not that integer, also in the body of the request. -/
theorem ttl_beyond_int_is_default :
    toString (9223372036854775808 : Int) = "9223372036854775808" ∧
    Atoi "9223372036854775808" = .error ⟨"Atoi", "9223372036854775808", .ErrRange⟩ ∧
    main.ttl (Getenv (sampleEnv "ns.example:8081" "example.com" (some "9223372036854775808"))
      "PDNS_TTL") = 300 ∧
    main.ttl (Getenv (sampleEnv "ns.example:8081" "example.com" (some "9223372036854775808"))
      "PDNS_TTL") ≠ 9223372036854775808 ∧
    requestsOf (main (sampleEnv "ns.example:8081" "example.com" (some "9223372036854775808"))
        (fun _ => sampleRuntime fun _ => .ok ⟨204⟩) 1).1 =
      [sampleRequest "ns.example:8081" "example.com" scenarioBody] := by
  have h : main.ttl (Getenv (sampleEnv "ns.example:8081" "example.com"
      (some "9223372036854775808")) "PDNS_TTL") = 300 := by rfl
  exact ⟨by rfl, by rfl, h, by rw [h]; decide, by rfl⟩

/-- C9, amended. The TTL is 300 when `PDNS_TTL` is unset or empty; it is the
integer `n` when `PDNS_TTL` is the decimal text of an integer `n` in the range
of `int`, from `-2^63` to `2^63 - 1` (zero and negative `n` included); it is 300
when `PDNS_TTL` is the decimal text of an integer outside that range, and
whenever `strconv.Atoi` refuses the text. It is computed once, before the loop:
the body of every request that `main` sends, in whatever iteration, is the
serialization of a document built with this TTL, and such a document carries
the TTL in its record set and in its record. -/
theorem ttl_value (env : Env) (rt : Nat → Runtime) :
    (missing env "PDNS_TTL" → main.ttl (Getenv env "PDNS_TTL") = 300) ∧
    (∀ n : Int, -(2 ^ 63) ≤ n → n < 2 ^ 63 → main.ttl (toString n) = n) ∧
    (∀ n : Int, n < -(2 ^ 63) ∨ 2 ^ 63 ≤ n → main.ttl (toString n) = 300) ∧
    (∀ s err, Atoi s = .error err → main.ttl s = 300) ∧
    (∀ fuel req, req ∈ requestsOf (main env rt fuel).1 →
      ∃ i localIP,
        (rt i).Marshal (main.update localIP (Getenv env "PDNS_OWN_NAME") (Getenv env "PDNS_ZONE")
          (main.ttl (Getenv env "PDNS_TTL"))) = .ok req.Body) ∧
    (∀ localIP ownName zoneName ttl, ∀ rrset ∈ (main.update localIP ownName zoneName ttl).RRSets,
      rrset.TTL = ttl ∧ ∀ record ∈ rrset.Records, record.TTL = ttl) := by
  have herr : ∀ s err, Atoi s = .error err → main.ttl s = 300 := by
    intro s err h
    unfold main.ttl
    split
    · rw [h]; rfl
    · rfl
  refine ⟨?_, ?_, ?_, herr, ?_, ?_⟩
  · intro h
    rw [(missing_iff env "PDNS_TTL").1 h]
    rfl
  · intro n hlo hhi
    have h := Atoi_toString n hlo hhi
    unfold main.ttl
    split
    · rw [h]
    · rename_i hempty
      have he : toString n = "" := not_not.1 hempty
      rw [he] at h
      exact absurd h (by simp [show Atoi "" = .error ⟨"Atoi", "", .ErrSyntax⟩ from rfl])
  · intro n h
    obtain ⟨err, he⟩ := Atoi_out_of_range n h
    exact herr _ err he
  · intro fuel req h
    unfold main at h
    simp only at h
    split at h
    · simp [requestsOf] at h
    · exact loop_requests rt _ _ _ _ _ _ fuel 0 req h
  · intro localIP ownName zoneName ttl rrset hr
    simp only [main.update, List.mem_singleton] at hr
    subst hr
    refine ⟨rfl, ?_⟩
    intro record hrec
    simp only [List.mem_singleton] at hrec
    subst hrec
    rfl

/-- C9, amended, at concrete inputs: `PDNS_TTL` unset, and the decimal texts of
`-5`, of `0` and of `2^63 - 1`. -/
theorem ttl_value_witness :
    main.ttl (Getenv (sampleEnv "ns.example:8081" "example.com" none) "PDNS_TTL") = 300 ∧
    main.ttl (toString (-5 : Int)) = -5 ∧
    main.ttl (toString (0 : Int)) = 0 ∧
    main.ttl (toString (9223372036854775807 : Int)) = 9223372036854775807 :=
  ⟨(ttl_value (sampleEnv "ns.example:8081" "example.com" none)
      (fun _ => sampleRuntime fun _ => .ok ⟨204⟩)).1 (Or.inl rfl),
    (ttl_value (sampleEnv "ns.example:8081" "example.com" none)
      (fun _ => sampleRuntime fun _ => .ok ⟨204⟩)).2.1 (-5) (by decide) (by decide),
    (ttl_value (sampleEnv "ns.example:8081" "example.com" none)
      (fun _ => sampleRuntime fun _ => .ok ⟨204⟩)).2.1 0 (by decide) (by decide),
    (ttl_value (sampleEnv "ns.example:8081" "example.com" none)
      (fun _ => sampleRuntime fun _ => .ok ⟨204⟩)).2.1 9223372036854775807 (by decide)
      (by decide)⟩

/-- C10. In every iteration that receives an HTTP response, whatever its
status code, the events end with the completed 30-minute sleep followed by the
lines `Successfully updated DNS record!`, `IP:  <address>` and
`Sleeping for 30 minutes...`, and no sleep comes before them; for a status
other than 204 the iteration prints both the line `Request failed: status code <c>`
and the line `Successfully updated DNS record!`, and there is such an iteration
(status 500). -/
theorem closing_lines_follow_sleep (rt : Runtime)
    (apiKey ownName pdnsServer interfaceName zoneName : String) (ttl : Int)
    (localIP body : String) (req : Request) (resp : Response)
    (h1 : getLocalIPAddress rt.InterfaceByName interfaceName = .ok localIP)
    (h2 : rt.Marshal (main.update localIP ownName zoneName ttl) = .ok body)
    (h3 : main.request rt.urlParse apiKey pdnsServer zoneName body = .ok req)
    (h4 : rt.Do req = .ok resp) :
    (∃ before,
      (main.iteration rt apiKey ownName pdnsServer interfaceName zoneName ttl).1 =
        before ++ [.sleep (30 * Minute),
          .stdout "Successfully updated DNS record!\n",
          .stdout ("IP:  " ++ localIP ++ "\n"),
          .stdout "Sleeping for 30 minutes...\n"] ∧
      (∀ d, .sleep d ∉ before) ∧
      .stdout "Successfully updated DNS record!\n" ∉ before ∧
      .stdout "Sleeping for 30 minutes...\n" ∉ before) ∧
    (resp.StatusCode ≠ 204 →
      .stdout ("Request failed: status code " ++ toString resp.StatusCode ++ "\n") ∈
        (main.iteration rt apiKey ownName pdnsServer interfaceName zoneName ttl).1 ∧
      .stdout "Successfully updated DNS record!\n" ∈
        (main.iteration rt apiKey ownName pdnsServer interfaceName zoneName ttl).1) ∧
    (∃ c : Int, c ≠ 204 ∧
      .stdout ("Request failed: status code " ++ toString c ++ "\n") ∈
        (main.iteration (sampleRuntime fun _ => .ok ⟨c⟩)
          "secret" "host1" "ns.example:8081" "eth0" "example.com" 300).1 ∧
      .stdout "Successfully updated DNS record!\n" ∈
        (main.iteration (sampleRuntime fun _ => .ok ⟨c⟩)
          "secret" "host1" "ns.example:8081" "eth0" "example.com" 300).1) := by
  have hit := iteration_response rt apiKey ownName pdnsServer interfaceName zoneName ttl
    localIP body req resp h1 h2 h3 h4
  have hf := failLine_ne_fixed (toString resp.StatusCode)
  refine ⟨?_, ?_, ?_⟩
  · rw [hit]
    refine ⟨[.resolve interfaceName, .send req,
      (if resp.StatusCode ≠ StatusNoContent then
        .stdout ("Request failed: status code " ++ toString resp.StatusCode ++ "\n")
      else .stdout "Resource record updated successfully!\n")], rfl, ?_, ?_, ?_⟩
    · intro d
      by_cases hc : resp.StatusCode = StatusNoContent <;> simp [hc]
    · by_cases hc : resp.StatusCode = StatusNoContent
      · simp only [hc, ne_eq, not_true_eq_false, if_false, List.mem_cons, Event.stdout.injEq,
          List.mem_singleton, List.not_mem_nil, not_or]
        exact ⟨by simp, by simp, by decide, not_false⟩
      · simp only [hc, ne_eq, not_false_eq_true, if_true, List.mem_cons, Event.stdout.injEq,
          List.mem_singleton, List.not_mem_nil, not_or]
        exact ⟨by simp, by simp, fun h => hf.2.1 h.symm, trivial⟩
    · by_cases hc : resp.StatusCode = StatusNoContent
      · simp only [hc, ne_eq, not_true_eq_false, if_false, List.mem_cons, Event.stdout.injEq,
          List.mem_singleton, List.not_mem_nil, not_or]
        exact ⟨by simp, by simp, by decide, not_false⟩
      · simp only [hc, ne_eq, not_false_eq_true, if_true, List.mem_cons, Event.stdout.injEq,
          List.mem_singleton, List.not_mem_nil, not_or]
        exact ⟨by simp, by simp, fun h => hf.2.2 h.symm, trivial⟩
  · intro hc
    have hc1 : resp.StatusCode ≠ StatusNoContent := hc
    rw [hit]
    simp [hc1]
  · refine ⟨500, by decide, ?_, ?_⟩ <;> decide

/-- C10 at a concrete input: a response with status 401. -/
theorem closing_lines_follow_sleep_witness :
    .stdout ("Request failed: status code " ++ toString (401 : Int) ++ "\n") ∈
        (main.iteration (sampleRuntime fun _ => .ok ⟨401⟩)
          "secret" "host1" "ns.example:8081" "eth0" "example.com" 300).1 ∧
      .stdout "Successfully updated DNS record!\n" ∈
        (main.iteration (sampleRuntime fun _ => .ok ⟨401⟩)
          "secret" "host1" "ns.example:8081" "eth0" "example.com" 300).1 :=
  (closing_lines_follow_sleep (sampleRuntime fun _ => .ok ⟨401⟩)
    "secret" "host1" "ns.example:8081" "eth0" "example.com" 300 "203.0.113.5" scenarioBody
    (sampleRequest "ns.example:8081" "example.com" scenarioBody) ⟨401⟩
    host_resolves sample_marshal (sample_request scenarioBody) rfl).2.1 (by decide)

end PddnsGo
